import Mathlib

/-!
Combination controller: the reconciliation loop.

A shallow embedding of `pkg/controller/combo_controller.go`:
`formatArguments`, `manageSuccess`, `manageFailure` and `Reconcile`,
together with the collaborators the controller talks to (cluster client,
combination stream, template builder, condition builder).

Go values are embedded as follows.
* `error` is `Option GoErr` (`none` is `nil`).
* `map[string][]string` is an association list `GoMap` whose only writer is
  `GoMap.set` (the assignment `m[k] = v`).
* `time.Time` and `time.Duration` are integers counting nanoseconds.
* Stateful collaborator calls thread a `World` (the stored objects and the
  trace of calls issued so far).
* Logging has no effect on results or stored state and is left out.
-/

set_option autoImplicit false

namespace Combo

/-! ## Go maps of string slices -/

/-- A value of Go type `map[string][]string`: key/value rows. -/
abbrev GoMap := List (String × List String)

namespace GoMap

/-- The map literal `map[string][]string{}`. -/
def empty : GoMap := []

/-- The assignment `m[k] = v`: overwrite the row of `k`, or add one. -/
def set : GoMap → String → List String → GoMap
  | [], k, v => [(k, v)]
  | (k', v') :: rest, k, v =>
    if k' = k then (k, v) :: rest else (k', v') :: set rest k v

/-- The lookup `v, ok := m[k]`. -/
def get? : GoMap → String → Option (List String)
  | [], _ => none
  | (k', v') :: rest, k => if k' = k then some v' else get? rest k

/-- The keys present in the map. -/
def keys (m : GoMap) : List String := m.map Prod.fst

/-- Whether `k` is a key of the map. -/
def contains (m : GoMap) (k : String) : Bool := (m.get? k).isSome

end GoMap

/-! ## API types (`api/v1alpha1`) -/

/-- The type `v1alpha1.Argument`. -/
structure Argument where
  Key : String
  Values : List String
  deriving DecidableEq, Repr

/-- Translation of `formatArguments`: one pass over the arguments in order,
each performing `formattedArguments[argument.Key] = argument.Values`. -/
def formatArguments (arguments : List Argument) : GoMap :=
  arguments.foldl (fun formattedArguments argument =>
    formattedArguments.set argument.Key argument.Values) GoMap.empty

/-- The last entry of `args` whose `Key` is `k`, if there is one. -/
def lastWithKey (args : List Argument) (k : String) : Option Argument :=
  args.reverse.find? (fun a => decide (a.Key = k))

/-! ## Errors -/

/-- The reason carried by an API status error (`metav1.StatusReason`, a
string type). -/
abbrev StatusReason := String

/-- The constant `metav1.StatusReasonUnknown`. -/
def StatusReasonUnknown : StatusReason := ""

/-- The constant `metav1.StatusReasonNotFound`. -/
def StatusReasonNotFound : StatusReason := "NotFound"

/-- The constant `metav1.StatusReasonConflict`. -/
def StatusReasonConflict : StatusReason := "Conflict"

/-- The constant `http.StatusNotFound`. -/
def StatusNotFound : Int := 404

/-- The constant `http.StatusConflict`. -/
def StatusConflict : Int := 409

/-- The table `knownReasons` of package `apierrors`: every reason the package
names except the unknown one. -/
def knownReasons : List StatusReason :=
  ["Unauthorized", "Forbidden", "NotFound", "AlreadyExists", "Conflict", "Gone", "Invalid",
   "ServerTimeout", "Timeout", "TooManyRequests", "BadRequest", "MethodNotAllowed",
   "NotAcceptable", "RequestEntityTooLarge", "UnsupportedMediaType", "InternalError",
   "Expired", "ServiceUnavailable"]

/-- A non-nil Go `error` value.
* `status` is an `*apierrors.StatusError` returned by the cluster API, with
  the reason and the HTTP code of its `metav1.Status`;
* `plain` is an error without a cause (`errors.New`);
* `wrap text cause` is the value of `fmt.Errorf` with one `%w` verb: `text`
  is the formatted message and `cause` the operand of `%w`. -/
inductive GoErr
  | status (reason : StatusReason) (code : Int) (msg : String)
  | plain (msg : String)
  | wrap (text : String) (cause : GoErr)
  deriving DecidableEq, Repr

namespace GoErr

/-- The method `Error()`: the text of the error. -/
def Error : GoErr → String
  | status _ _ msg => msg
  | plain msg => msg
  | wrap text _ => text

/-- The chain an error yields under repeated `errors.Unwrap`, itself first. -/
def chain : GoErr → List GoErr
  | status r k m => [status r k m]
  | plain m => [plain m]
  | wrap t c => wrap t c :: chain c

/-- The test `errors.Is(outer, target)` on this error model: `target` is
`outer` or is reached from it by unwrapping. -/
def carries (outer target : GoErr) : Bool := decide (target ∈ outer.chain)

/-- The helper `reasonAndCodeForError` of package `apierrors`: reason and code
of the first status error of the chain (`errors.As`), or the unknown reason
and code 0 when there is none. -/
def reasonAndCodeForError : GoErr → StatusReason × Int
  | status reason code _ => (reason, code)
  | plain _ => (StatusReasonUnknown, 0)
  | wrap _ cause => reasonAndCodeForError cause

/-- The test `apierrors.IsNotFound`: the reason is `NotFound`, or the reason
is not a known one and the code is 404. -/
def IsNotFound (err : GoErr) : Bool :=
  if (reasonAndCodeForError err).1 = StatusReasonNotFound then true
  else if (reasonAndCodeForError err).1 ∉ knownReasons ∧
      (reasonAndCodeForError err).2 = StatusNotFound then true
  else false

end GoErr

/-- The call `fmt.Errorf(pre + "%w", err)` for a format whose last verb is
`%w`: the text is `pre` followed by the text of `err`, and `err` is wrapped. -/
def Errorf (pre : String) (err : GoErr) : GoErr :=
  GoErr.wrap (pre ++ err.Error) err

/-- The helper `client.IgnoreNotFound`: `nil` for a not-found error, the
error itself otherwise. -/
def IgnoreNotFound (err : GoErr) : Option GoErr :=
  if err.IsNotFound then none else some err

/-- The constructor `apierrors.NewNotFound` for a resource and object name. -/
def NewNotFound (resource name : String) : GoErr :=
  GoErr.status StatusReasonNotFound StatusNotFound
    (resource ++ " \"" ++ name ++ "\" not found")

/-! ## Time -/

/-- A `time.Time` instant: nanoseconds since Go's zero time. -/
abbrev Time := Int

/-- A `time.Duration`: a count of nanoseconds. -/
abbrev Duration := Int

/-- The constant `time.Second`. -/
def Second : Duration := 1000000000

/-- The method `IsZero` of `*metav1.Time`: a nil pointer or the zero instant. -/
def IsZero : Option Time → Bool
  | none => true
  | some t => decide (t = 0)

/-! ## Resources -/

/-- The type `types.NamespacedName`. -/
structure NamespacedName where
  Namespace : String := ""
  Name : String
  deriving DecidableEq, Repr

/-- The type `metav1.Condition` (the fields the controller reads or writes). -/
structure Condition where
  CondType : String
  Status : String
  Reason : String
  Message : String
  LastTransitionTime : Time
  deriving DecidableEq, Repr

/-- The part of `metav1.ObjectMeta` the controller reads. -/
structure ObjectMeta where
  Name : String
  Namespace : String := ""
  DeletionTimestamp : Option Time := none
  deriving DecidableEq, Repr

/-- The type `v1alpha1.CombinationSpec`. -/
structure CombinationSpec where
  Template : String
  Arguments : List Argument := []
  deriving DecidableEq, Repr

/-- The type `v1alpha1.CombinationStatus`. -/
structure CombinationStatus where
  Conditions : List Condition := []
  Evaluation : List String := []
  deriving DecidableEq, Repr

/-- The type `v1alpha1.Combination`. -/
structure Combination where
  ObjectMeta : ObjectMeta
  Spec : CombinationSpec
  Status : CombinationStatus := {}
  deriving DecidableEq, Repr

/-- The type `v1alpha1.TemplateSpec`. -/
structure TemplateSpec where
  Body : String
  deriving DecidableEq, Repr

/-- The type `v1alpha1.Template`. -/
structure Template where
  ObjectMeta : ObjectMeta
  Spec : TemplateSpec
  deriving DecidableEq, Repr

/-- The identity under which the cluster stores an object. -/
def ObjectMeta.key (m : ObjectMeta) : NamespacedName :=
  { Namespace := m.Namespace, Name := m.Name }

/-- The type `ctrl.Request`. -/
structure Request where
  NamespacedName : NamespacedName
  deriving DecidableEq, Repr

/-- The type `reconcile.Result`; `{}` is the empty result. -/
structure Result where
  Requeue : Bool := false
  RequeueAfter : Duration := 0
  deriving DecidableEq, Repr

/-! ## Collaborators -/

/-- Package `pkg/conditions` as the controller sees it: the four condition
values it names and the builder `NewConditions(now, err, condition)`. The
controller is parametric in the package. -/
structure ConditionsPkg where
  TemplateNotFoundCondition : Condition
  TemplateBodyInvalid : Condition
  ManifestGenerationFailed : Condition
  ProccessedCombinationsCondition : Condition
  NewConditions : Time → Option GoErr → Condition → List Condition

/-- Modelled from the spec: the condition builder of `pkg/conditions` and its
four condition kinds (section 4.1 and the Condition entry of section 3).
Without an error the single condition is the success kind with status true;
with an error it is the given kind with status false and the error text as
message. -/
def specConditions : ConditionsPkg where
  TemplateNotFoundCondition :=
    { CondType := "TemplateNotFound", Status := "False", Reason := "TemplateNotFound",
      Message := "", LastTransitionTime := 0 }
  TemplateBodyInvalid :=
    { CondType := "TemplateBodyInvalid", Status := "False", Reason := "TemplateBodyInvalid",
      Message := "", LastTransitionTime := 0 }
  ManifestGenerationFailed :=
    { CondType := "ManifestGenerationFailed", Status := "False",
      Reason := "ManifestGenerationFailed", Message := "", LastTransitionTime := 0 }
  ProccessedCombinationsCondition :=
    { CondType := "ProcessedCombinations", Status := "True", Reason := "ProcessedCombinations",
      Message := "", LastTransitionTime := 0 }
  NewConditions := fun now err kind =>
    match err with
    | none =>
      [{ CondType := "ProcessedCombinations", Status := "True", Reason := "ProcessedCombinations",
         Message := "", LastTransitionTime := now }]
    | some e =>
      [{ CondType := kind.CondType, Status := "False", Reason := kind.Reason,
         Message := e.Error, LastTransitionTime := now }]

/-- Modelled from the spec: the expansion stream of `pkg/combination`
(section 6): it is constructed with a key to value-list mapping and a mode
flag requesting eager (solve-ahead) evaluation. -/
structure Stream where
  args : GoMap := []
  solveAhead : Bool := false
  deriving DecidableEq, Repr

/-- Modelled from the spec: a construction option of the expansion stream. -/
abbrev StreamOption := Stream → Stream

/-- Modelled from the spec: the option `combinationPkg.WithArgs`. -/
def WithArgs (args : GoMap) : StreamOption := fun s => { s with args := args }

/-- Modelled from the spec: the option `combinationPkg.WithSolveAhead`. -/
def WithSolveAhead : StreamOption := fun s => { s with solveAhead := true }

/-- Modelled from the spec: `combinationPkg.NewStream`, applying its options
in order; construction never fails. -/
def NewStream (opts : List StreamOption) : Stream :=
  opts.foldl (fun s o => o s) {}

/-- A template builder (`pkg/template`), given by what its method
`Build(ctx)` returns. -/
structure Builder where
  Build : Except GoErr (List String)

/-- One collaborator call. -/
inductive Call
  | GetCombination (key : NamespacedName)
  | GetTemplate (key : NamespacedName)
  | NewStream (stream : Stream)
  | NewBuilder (body : String) (stream : Stream)
  | Build
  | StatusUpdate (combination : Combination)
  deriving DecidableEq, Repr

/-- The deterministic collaborators of one reconciliation: the condition
package, the template engine constructor `templatePkg.NewBuilder`, the clock
reading `time.Now()`, and the faults of the cluster API (an error a read or
a status update returns instead of being served). -/
structure Env where
  conditions : ConditionsPkg
  NewBuilder : String → Stream → Except GoErr Builder
  Now : Time
  getFault : NamespacedName → Option GoErr := fun _ => none
  getTemplateFault : NamespacedName → Option GoErr := fun _ => none
  updateFault : Combination → Option GoErr := fun _ => none

/-- The cluster API state and the calls issued so far. -/
structure World where
  combinations : List Combination := []
  templates : List Template := []
  trace : List Call := []
  deriving DecidableEq, Repr

/-- Append a call to the trace. -/
def World.record (w : World) (c : Call) : World :=
  { w with trace := w.trace ++ [c] }

/-- What the cluster API answers to a read of the Combination `key`. -/
def lookupCombination (env : Env) (w : World) (key : NamespacedName) :
    Except GoErr Combination :=
  match env.getFault key with
  | some e => .error e
  | none =>
    match w.combinations.find? (fun c => decide (c.ObjectMeta.key = key)) with
    | some c => .ok c
    | none => .error (NewNotFound "combinations.combo.io" key.Name)

/-- What the cluster API answers to a read of the Template `key`. -/
def lookupTemplate (env : Env) (w : World) (key : NamespacedName) :
    Except GoErr Template :=
  match env.getTemplateFault key with
  | some e => .error e
  | none =>
    match w.templates.find? (fun t => decide (t.ObjectMeta.key = key)) with
    | some t => .ok t
    | none => .error (NewNotFound "templates.combo.io" key.Name)

/-- What the cluster API answers to a status update of `c`: a fault, a
not-found error when no such object is stored, or success. -/
def updateOutcome (env : Env) (w : World) (c : Combination) : Option GoErr :=
  match env.updateFault c with
  | some e => some e
  | none =>
    if w.combinations.any (fun o => decide (o.ObjectMeta.key = c.ObjectMeta.key)) then none
    else some (NewNotFound "combinations.combo.io" c.ObjectMeta.Name)

/-- The stored Combinations after a status update of `c` was served: the
stored object of that identity takes the status of `c`. -/
def storeStatus (cs : List Combination) (c : Combination) : List Combination :=
  cs.map (fun o =>
    if o.ObjectMeta.key = c.ObjectMeta.key then { o with Status := c.Status } else o)

/-- The call `c.Get(ctx, key, combination)`. -/
def Get (env : Env) (w : World) (key : NamespacedName) :
    Except GoErr Combination × World :=
  (lookupCombination env w key, w.record (Call.GetCombination key))

/-- The call `c.Get(ctx, key, template)`. -/
def GetTemplate (env : Env) (w : World) (key : NamespacedName) :
    Except GoErr Template × World :=
  (lookupTemplate env w key, w.record (Call.GetTemplate key))

/-- The call `c.Status().Update(ctx, combination)`. -/
def StatusUpdate (env : Env) (w : World) (combination : Combination) :
    Option GoErr × World :=
  match updateOutcome env w combination with
  | some e => (some e, w.record (Call.StatusUpdate combination))
  | none =>
    (none, { (w.record (Call.StatusUpdate combination)) with
               combinations := storeStatus w.combinations combination })

/-- The call `combinationPkg.NewStream(opts...)`, recorded. -/
def newStream (w : World) (opts : List StreamOption) : Stream × World :=
  (NewStream opts, w.record (Call.NewStream (NewStream opts)))

/-- The call `templatePkg.NewBuilder(strings.NewReader(body), stream)`. -/
def newBuilder (env : Env) (w : World) (body : String) (stream : Stream) :
    Except GoErr Builder × World :=
  (env.NewBuilder body stream, w.record (Call.NewBuilder body stream))

/-- The call `builder.Build(ctx)`. -/
def build (w : World) (builder : Builder) : Except GoErr (List String) × World :=
  (builder.Build, w.record Call.Build)

/-! ## The controller -/

/-- The variable `RequeueDefaultTime = time.Second * 2`. -/
def RequeueDefaultTime : Duration := Second * 2

/-- The variable `SuccessCondition`. -/
def SuccessCondition (P : ConditionsPkg) : Condition := P.ProccessedCombinationsCondition

/-- Translation of `manageSuccess`. -/
def manageSuccess (env : Env) (w : World) (combination : Combination)
    (evaluation : List String) : Result × Option GoErr × World :=
  let combination : Combination := { combination with
    Status := { combination.Status with
      Conditions := env.conditions.NewConditions env.Now none (SuccessCondition env.conditions) } }
  let combination : Combination := { combination with
    Status := { combination.Status with Evaluation := evaluation } }
  match StatusUpdate env w combination with
  | (some updateErr, w) => ({ RequeueAfter := RequeueDefaultTime }, some updateErr, w)
  | (none, w) => ({}, none, w)

/-- Translation of `manageFailure`. -/
def manageFailure (env : Env) (w : World) (combination : Combination)
    (condition : Condition) (err : GoErr) : Result × Option GoErr × World :=
  let combination : Combination := { combination with
    Status := { combination.Status with
      Conditions := env.conditions.NewConditions env.Now (some err) condition } }
  match StatusUpdate env w combination with
  | (some updateErr, w) => ({ RequeueAfter := RequeueDefaultTime }, some updateErr, w)
  | (none, w) => ({}, some err, w)

/-- Translation of `Reconcile`. -/
def Reconcile (env : Env) (w : World) (req : Request) : Result × Option GoErr × World :=
  match Get env w req.NamespacedName with
  | (.error err, w) => ({}, IgnoreNotFound err, w)
  | (.ok combination, w) =>
    if !IsZero combination.ObjectMeta.DeletionTimestamp then ({}, none, w)
    else
      let templateQuery : NamespacedName := { Name := combination.Spec.Template }
      match GetTemplate env w templateQuery with
      | (.error err, w) =>
        let err := Errorf ("failed to retrieve " ++ combination.Spec.Template ++ " template: ") err
        manageFailure env w combination env.conditions.TemplateNotFoundCondition err
      | (.ok template, w) =>
        match newStream w [WithArgs (formatArguments combination.Spec.Arguments),
                           WithSolveAhead] with
        | (comboStream, w) =>
          match newBuilder env w template.Spec.Body comboStream with
          | (.error err, w) =>
            let err := Errorf ("failed to construct a builder out of " ++
              template.ObjectMeta.Name ++ " template body: ") err
            manageFailure env w combination env.conditions.TemplateBodyInvalid err
          | (.ok builder, w) =>
            match build w builder with
            | (.error err, w) =>
              let err := Errorf ("failed to generate manifest " ++
                combination.ObjectMeta.Name ++ " combinations: ") err
              manageFailure env w combination env.conditions.ManifestGenerationFailed err
            | (.ok generatedManifests, w) =>
              manageSuccess env w combination generatedManifests

/-- The Combinations handed to a status update in a trace, in order. -/
def statusWrites : List Call → List Combination
  | [] => []
  | Call.StatusUpdate c :: rest => c :: statusWrites rest
  | _ :: rest => statusWrites rest

/-- The calls issued by the reconciliation of `req` started in world `w`. -/
def passTrace (env : Env) (w : World) (req : Request) : List Call :=
  (Reconcile env w req).2.2.trace.drop w.trace.length

/-- The Combination `c` with its status conditions replaced. -/
def withConditions (c : Combination) (conds : List Condition) : Combination :=
  { c with Status := { c.Status with Conditions := conds } }

/-- The Combination `c` with conditions and evaluation of its status replaced. -/
def withStatus (c : Combination) (conds : List Condition) (evaluation : List String) :
    Combination :=
  { c with Status := { Conditions := conds, Evaluation := evaluation } }

/-- The expansion stream `Reconcile` constructs for the Combination `c`. -/
def streamOf (c : Combination) : Stream :=
  NewStream [WithArgs (formatArguments c.Spec.Arguments), WithSolveAhead]

/-- What one reconciliation settles before it reports: the primary fetch
failed, the Combination is being deleted, or `handed` is passed to the status
update after the calls `calls`, with `err` the wrapped error of the failing
delegation step (`none` on success). -/
inductive Plan
  | fetchFailed (e : GoErr)
  | deleted
  | report (handed : Combination) (calls : List Call) (err : Option GoErr)
  deriving DecidableEq, Repr

/-- The plan of a reconciliation of `req` once the Combination `c` was
fetched, read off the answers of the collaborators. -/
def planFor (env : Env) (w : World) (req : Request) (c : Combination) : Plan :=
  if IsZero c.ObjectMeta.DeletionTimestamp = false then Plan.deleted
  else
    match lookupTemplate env w { Name := c.Spec.Template } with
    | .error e =>
      let err := Errorf ("failed to retrieve " ++ c.Spec.Template ++ " template: ") e
      Plan.report
        (withConditions c (env.conditions.NewConditions env.Now (some err)
          env.conditions.TemplateNotFoundCondition))
        [Call.GetCombination req.NamespacedName, Call.GetTemplate { Name := c.Spec.Template }]
        (some err)
    | .ok t =>
      match env.NewBuilder t.Spec.Body (streamOf c) with
      | .error e =>
        let err := Errorf ("failed to construct a builder out of " ++ t.ObjectMeta.Name ++
          " template body: ") e
        Plan.report
          (withConditions c (env.conditions.NewConditions env.Now (some err)
            env.conditions.TemplateBodyInvalid))
          [Call.GetCombination req.NamespacedName,
            Call.GetTemplate { Name := c.Spec.Template },
            Call.NewStream (streamOf c), Call.NewBuilder t.Spec.Body (streamOf c)]
          (some err)
      | .ok b =>
        match b.Build with
        | .error e =>
          let err := Errorf ("failed to generate manifest " ++ c.ObjectMeta.Name ++
            " combinations: ") e
          Plan.report
            (withConditions c (env.conditions.NewConditions env.Now (some err)
              env.conditions.ManifestGenerationFailed))
            [Call.GetCombination req.NamespacedName,
              Call.GetTemplate { Name := c.Spec.Template },
              Call.NewStream (streamOf c), Call.NewBuilder t.Spec.Body (streamOf c),
              Call.Build]
            (some err)
        | .ok ms =>
          Plan.report
            (withStatus c (env.conditions.NewConditions env.Now none
              (SuccessCondition env.conditions)) ms)
            [Call.GetCombination req.NamespacedName,
              Call.GetTemplate { Name := c.Spec.Template },
              Call.NewStream (streamOf c), Call.NewBuilder t.Spec.Body (streamOf c),
              Call.Build]
            none

/-- The plan of the reconciliation of `req` in world `w`. -/
def plan (env : Env) (w : World) (req : Request) : Plan :=
  match lookupCombination env w req.NamespacedName with
  | .error e => Plan.fetchFailed e
  | .ok c => planFor env w req c

/-- The outcome a plan leads to for request `req` in world `w`. -/
def Plan.outcome (env : Env) (w : World) (req : Request) :
    Plan → Result × Option GoErr × World
  | Plan.fetchFailed e =>
    ({}, IgnoreNotFound e, w.record (Call.GetCombination req.NamespacedName))
  | Plan.deleted => ({}, none, w.record (Call.GetCombination req.NamespacedName))
  | Plan.report handed calls err =>
    match updateOutcome env w handed with
    | some ue =>
      ({ RequeueAfter := RequeueDefaultTime }, some ue,
        { w with trace := w.trace ++ (calls ++ [Call.StatusUpdate handed]) })
    | none =>
      ({}, err,
        { w with
          combinations := storeStatus w.combinations handed
          trace := w.trace ++ (calls ++ [Call.StatusUpdate handed]) })

/-- The calls a plan issues for request `req`. -/
def Plan.calls (req : Request) : Plan → List Call
  | Plan.fetchFailed _ => [Call.GetCombination req.NamespacedName]
  | Plan.deleted => [Call.GetCombination req.NamespacedName]
  | Plan.report handed calls _ => calls ++ [Call.StatusUpdate handed]

/-- A conflict answer of the cluster API to a status update. -/
def conflictErr : GoErr :=
  GoErr.status StatusReasonConflict StatusConflict "the object has been modified"

/-- A Combination of template `t1` with one argument and a prior evaluation. -/
def demoCombination : Combination :=
  { ObjectMeta := { Name := "c1", Namespace := "ns" }
    Spec := { Template := "t1", Arguments := [{ Key := "env", Values := ["dev", "prod"] }] }
    Status := { Evaluation := ["old-manifest"] } }

/-- The Template `t1`. -/
def demoTemplate : Template :=
  { ObjectMeta := { Name := "t1" }, Spec := { Body := "env: ENV" } }

/-- The request for `demoCombination`. -/
def demoReq : Request := { NamespacedName := { Namespace := "ns", Name := "c1" } }

/-- Collaborators without faults whose renderer yields two manifests. -/
def demoEnv : Env :=
  { conditions := specConditions
    NewBuilder := fun _ _ => .ok { Build := .ok ["manifest-dev", "manifest-prod"] }
    Now := 42 }

/-- The collaborators of `demoEnv` with every status update in conflict. -/
def conflictEnv : Env :=
  { demoEnv with updateFault := fun _ => some conflictErr }

/-- A cluster holding `demoCombination` and its template. -/
def demoWorld : World :=
  { combinations := [demoCombination], templates := [demoTemplate] }

/-- A cluster holding `demoCombination` but no template. -/
def noTemplateWorld : World := { combinations := [demoCombination] }

/-- The wrapped error of the template fetch of `demoCombination` when the
template is missing. -/
def demoTemplateErr : GoErr :=
  Errorf "failed to retrieve t1 template: " (NewNotFound "templates.combo.io" "t1")

/-- The resource handed to the status update when the template of
`demoCombination` is missing. -/
def demoFailureHanded : Combination :=
  withConditions demoCombination
    (specConditions.NewConditions 42 (some demoTemplateErr)
      specConditions.TemplateNotFoundCondition)

/-- A cluster holding a Combination that is being deleted. -/
def deletingWorld : World :=
  { combinations := [{ demoCombination with
      ObjectMeta := { Name := "c1", Namespace := "ns", DeletionTimestamp := some 7 } }]
    templates := [demoTemplate] }

/-- A cluster holding no Combination. -/
def emptyWorld : World := { templates := [demoTemplate] }

/-- Collaborators whose builder construction fails. -/
def badBodyEnv : Env :=
  { demoEnv with NewBuilder := fun _ _ => .error (GoErr.plain "unexpected end of body") }

/-- Collaborators whose manifest generation fails. -/
def badBuildEnv : Env :=
  { demoEnv with
    NewBuilder := fun _ _ => .ok { Build := .error (GoErr.plain "evaluation failed") } }

/-- The collaborators of `conflictEnv` once status updates are served again. -/
def retryEnv : Env :=
  { conflictEnv with updateFault := fun _ => none, Now := 50 }

/-- A condition left on a Combination by an earlier pass. -/
def staleCondition : Condition :=
  { CondType := "TemplateBodyInvalid", Status := "False", Reason := "TemplateBodyInvalid",
    Message := "stale", LastTransitionTime := 3 }

/-- The cluster of `demoWorld` with a prior condition on the Combination. -/
def staleWorld : World :=
  { combinations := [{ demoCombination with
      Status := { Conditions := [staleCondition], Evaluation := ["old-manifest"] } }]
    templates := [demoTemplate] }

/-- The step of the reconciliation table a collaborator call belongs to. -/
inductive Step
  | fetchCombination
  | fetchTemplate
  | constructStream
  | constructRenderer
  | generateManifests
  | statusWrite
  deriving DecidableEq, Repr

/-- The step a call belongs to. -/
def Call.step : Call → Step
  | Call.GetCombination _ => Step.fetchCombination
  | Call.GetTemplate _ => Step.fetchTemplate
  | Call.NewStream _ => Step.constructStream
  | Call.NewBuilder _ _ => Step.constructRenderer
  | Call.Build => Step.generateManifests
  | Call.StatusUpdate _ => Step.statusWrite

/-- The delegation steps in the order of the reconciliation table. -/
def tableOrder : List Step :=
  [Step.fetchCombination, Step.fetchTemplate, Step.constructStream,
   Step.constructRenderer, Step.generateManifests]

/-- The function `errors.Unwrap`: the wrapped cause, if there is one. -/
def GoErr.Unwrap : GoErr → Option GoErr
  | GoErr.wrap _ cause => some cause
  | _ => none

/-- Collaborators whose read of the Combination is refused by the cluster API. -/
def refusedEnv : Env :=
  { demoEnv with getFault := fun _ => some (GoErr.plain "connection refused") }

/-- The identities of the Templates read in a trace, in order. -/
def templateReads : List Call → List NamespacedName
  | [] => []
  | Call.GetTemplate key :: rest => key :: templateReads rest
  | _ :: rest => templateReads rest

/-- Collaborators whose read of the Combination is answered by a status error
of unknown reason and code 404. -/
def unknown404Env : Env :=
  { demoEnv with
    getFault := fun _ =>
      some (GoErr.status StatusReasonUnknown StatusNotFound
        "the server could not find the requested resource") }

/-- Collaborators whose read of the Combination is answered by a status error
of a known reason other than not-found. -/
def forbiddenEnv : Env :=
  { demoEnv with
    getFault := fun _ =>
      some (GoErr.status "Forbidden" 403 "combinations.combo.io \"c1\" is forbidden") }

/-! # Theorems -/

/-! ## Facts about Go maps -/

theorem GoMap.get?_set (m : GoMap) (k k' : String) (v : List String) :
    (m.set k v).get? k' = if k = k' then some v else m.get? k' := by
  induction m with
  | nil => simp [GoMap.set, GoMap.get?]
  | cons p rest ih =>
    obtain ⟨k0, v0⟩ := p
    by_cases h0 : k0 = k
    · subst h0
      by_cases h1 : k0 = k' <;> simp [GoMap.set, GoMap.get?, h1]
    · by_cases h1 : k0 = k'
      · subst h1
        have h2 : ¬ k = k0 := fun h => h0 h.symm
        simp [GoMap.set, GoMap.get?, h0, h2]
      · simp [GoMap.set, GoMap.get?, h0, h1, ih]

theorem GoMap.mem_keys_set (m : GoMap) (k k' : String) (v : List String) :
    k' ∈ (m.set k v).keys ↔ k' = k ∨ k' ∈ m.keys := by
  induction m with
  | nil => simp [GoMap.set, GoMap.keys]
  | cons p rest ih =>
    obtain ⟨k0, v0⟩ := p
    by_cases h0 : k0 = k
    · subst h0
      simp [GoMap.set, GoMap.keys]
    · have ih' : k' ∈ List.map Prod.fst (GoMap.set rest k v) ↔
          k' = k ∨ k' ∈ List.map Prod.fst rest := ih
      simp only [GoMap.set, GoMap.keys, h0, if_false, List.map_cons, List.mem_cons, ih']
      tauto

theorem GoMap.nodup_keys_set (m : GoMap) (k : String) (v : List String)
    (h : m.keys.Nodup) : (m.set k v).keys.Nodup := by
  induction m with
  | nil => simp [GoMap.set, GoMap.keys]
  | cons p rest ih =>
    obtain ⟨k0, v0⟩ := p
    have hk : k0 ∉ GoMap.keys rest ∧ (GoMap.keys rest).Nodup := by
      simpa [GoMap.keys] using h
    by_cases h0 : k0 = k
    · subst h0
      simpa [GoMap.set, GoMap.keys] using h
    · have hmem : k0 ∉ (GoMap.set rest k v).keys := by
        rw [GoMap.mem_keys_set]
        rintro (h1 | h1)
        · exact h0 h1
        · exact hk.1 h1
      have hnd := ih hk.2
      simp only [GoMap.set, h0, if_false]
      exact List.nodup_cons.mpr ⟨hmem, hnd⟩

theorem GoMap.get?_isSome_iff (m : GoMap) (k : String) :
    (m.get? k).isSome = true ↔ k ∈ m.keys := by
  induction m with
  | nil => simp [GoMap.get?, GoMap.keys]
  | cons p rest ih =>
    obtain ⟨k0, v0⟩ := p
    have ih' : (GoMap.get? rest k).isSome = true ↔ k ∈ List.map Prod.fst rest := ih
    by_cases h0 : k0 = k
    · simp [GoMap.get?, GoMap.keys, h0]
    · have h1 : ¬ k = k0 := fun h => h0 h.symm
      simp only [GoMap.get?, GoMap.keys, h0, if_false, List.map_cons, List.mem_cons, h1,
        false_or, ih']

theorem lastWithKey_cons (a : Argument) (rest : List Argument) (k : String) :
    lastWithKey (a :: rest) k =
      match lastWithKey rest k with
      | some x => some x
      | none => if a.Key = k then some a else none := by
  unfold lastWithKey
  rw [List.reverse_cons, List.find?_append]
  cases h : List.find? (fun a => decide (a.Key = k)) rest.reverse with
  | none => by_cases hk : a.Key = k <;> simp [List.find?, hk]
  | some x => simp

theorem lastWithKey_isSome_iff (args : List Argument) (k : String) :
    (lastWithKey args k).isSome = true ↔ ∃ a ∈ args, a.Key = k := by
  unfold lastWithKey
  simp [List.find?_isSome]

/-- Folding the assignments of `formatArguments` over `args` from any map. -/
theorem foldl_set_get? (args : List Argument) (m : GoMap) (k : String) :
    (args.foldl (fun acc a => acc.set a.Key a.Values) m).get? k =
      match lastWithKey args k with
      | some a => some a.Values
      | none => m.get? k := by
  induction args generalizing m with
  | nil => simp [lastWithKey]
  | cons a rest ih =>
    rw [List.foldl_cons, ih, lastWithKey_cons]
    cases h : lastWithKey rest k with
    | some x => simp
    | none =>
      by_cases hk : a.Key = k
      · simp [hk, GoMap.get?_set]
      · simp [hk, GoMap.get?_set]

theorem foldl_set_nodup (args : List Argument) (m : GoMap) (h : m.keys.Nodup) :
    (args.foldl (fun acc a => acc.set a.Key a.Values) m).keys.Nodup := by
  induction args generalizing m with
  | nil => simpa using h
  | cons a rest ih =>
    rw [List.foldl_cons]
    exact ih _ (GoMap.nodup_keys_set m a.Key a.Values h)

theorem formatArguments_get? (args : List Argument) (k : String) :
    (formatArguments args).get? k = (lastWithKey args k).map (fun a => a.Values) := by
  unfold formatArguments
  rw [foldl_set_get?]
  cases lastWithKey args k <;> simp [GoMap.empty, GoMap.get?]

theorem lastWithKey_split (pre post : List Argument) (a : Argument)
    (h : ∀ b ∈ post, b.Key ≠ a.Key) :
    lastWithKey (pre ++ a :: post) a.Key = some a := by
  unfold lastWithKey
  have hnone : List.find? (fun x => decide (x.Key = a.Key)) post.reverse = none := by
    rw [List.find?_eq_none]
    intro x hx
    simpa using h x (List.mem_reverse.mp hx)
  simp [List.find?_append, hnone, List.find?]

/-- C1. For every argument list, the formatted map has a key exactly when some
entry of the list has that key, maps each such key to the values of the last
entry with that key (an entry after which no entry has its key), holds each
key once, and is the empty map for the empty list. The function is total, so
it never fails. -/
theorem formatArguments_last_wins (args : List Argument) :
    (∀ k, k ∈ (formatArguments args).keys ↔ ∃ a ∈ args, a.Key = k) ∧
    (∀ k, (formatArguments args).contains k = true ↔ ∃ a ∈ args, a.Key = k) ∧
    (∀ k, (formatArguments args).get? k = (lastWithKey args k).map (fun a => a.Values)) ∧
    (∀ pre a post, args = pre ++ a :: post → (∀ b ∈ post, b.Key ≠ a.Key) →
      (formatArguments args).get? a.Key = some a.Values) ∧
    (formatArguments args).keys.Nodup ∧
    formatArguments [] = GoMap.empty := by
  have hc : ∀ k, (formatArguments args).contains k = true ↔ ∃ a ∈ args, a.Key = k := by
    intro k
    unfold GoMap.contains
    rw [formatArguments_get?, ← lastWithKey_isSome_iff]
    cases lastWithKey args k <;> simp
  refine ⟨?_, hc, formatArguments_get? args, ?_, ?_, rfl⟩
  · intro k
    rw [← GoMap.get?_isSome_iff]
    exact hc k
  · intro pre a post hsplit hlast
    rw [formatArguments_get?, hsplit, lastWithKey_split pre post a hlast]
    rfl
  · exact foldl_set_nodup args GoMap.empty (by simp [GoMap.empty, GoMap.keys])

/-! ## The paths of `Reconcile` -/

theorem lookupCombination_record (env : Env) (w : World) (c : Call)
    (key : NamespacedName) :
    lookupCombination env (w.record c) key = lookupCombination env w key := rfl

theorem lookupTemplate_record (env : Env) (w : World) (c : Call)
    (key : NamespacedName) :
    lookupTemplate env (w.record c) key = lookupTemplate env w key := rfl

theorem updateOutcome_record (env : Env) (w : World) (c : Call)
    (x : Combination) :
    updateOutcome env (w.record c) x = updateOutcome env w x := rfl

theorem manageFailure_eq (env : Env) (w : World) (c : Combination)
    (kind : Condition) (err : GoErr) :
    manageFailure env w c kind err =
      match updateOutcome env w
        (withConditions c (env.conditions.NewConditions env.Now (some err) kind)) with
      | some ue =>
        ({ RequeueAfter := RequeueDefaultTime }, some ue,
          { w with trace := w.trace ++ [Call.StatusUpdate
            (withConditions c (env.conditions.NewConditions env.Now (some err) kind))] })
      | none =>
        ({}, some err,
          { w with
            combinations := storeStatus w.combinations
              (withConditions c (env.conditions.NewConditions env.Now (some err) kind))
            trace := w.trace ++ [Call.StatusUpdate
              (withConditions c (env.conditions.NewConditions env.Now (some err) kind))] }) := by
  simp only [manageFailure, StatusUpdate, withConditions, World.record]
  generalize updateOutcome env w _ = o
  cases o <;> rfl

theorem manageSuccess_eq (env : Env) (w : World) (c : Combination) (ms : List String) :
    manageSuccess env w c ms =
      match updateOutcome env w
        (withStatus c (env.conditions.NewConditions env.Now none
          (SuccessCondition env.conditions)) ms) with
      | some ue =>
        ({ RequeueAfter := RequeueDefaultTime }, some ue,
          { w with trace := w.trace ++ [Call.StatusUpdate
            (withStatus c (env.conditions.NewConditions env.Now none
              (SuccessCondition env.conditions)) ms)] })
      | none =>
        ({}, none,
          { w with
            combinations := storeStatus w.combinations
              (withStatus c (env.conditions.NewConditions env.Now none
                (SuccessCondition env.conditions)) ms)
            trace := w.trace ++ [Call.StatusUpdate
              (withStatus c (env.conditions.NewConditions env.Now none
                (SuccessCondition env.conditions)) ms)] }) := by
  simp only [manageSuccess, StatusUpdate, withStatus, World.record]
  generalize updateOutcome env w _ = o
  cases o <;> rfl

theorem streamOf_def (c : Combination) :
    NewStream [WithArgs (formatArguments c.Spec.Arguments), WithSolveAhead] = streamOf c := rfl

/-- `Reconcile` follows its plan. -/
theorem Reconcile_eq_outcome (env : Env) (w : World) (req : Request) :
    Reconcile env w req = (plan env w req).outcome env w req := by
  unfold Reconcile plan planFor
  simp only [Get]
  cases hget : lookupCombination env w req.NamespacedName with
  | error e => rfl
  | ok c =>
    cases hdel : IsZero c.ObjectMeta.DeletionTimestamp with
    | false => simp [Plan.outcome, hdel]
    | true =>
      simp only [hdel, Bool.not_true, Bool.false_eq_true, if_false, Bool.true_eq_false,
        GetTemplate, lookupTemplate_record]
      cases htpl : lookupTemplate env w { Name := c.Spec.Template } with
      | error e =>
        simp only [manageFailure_eq, Plan.outcome, updateOutcome_record]
        generalize updateOutcome env w _ = o
        cases o <;> simp [World.record]
      | ok t =>
        simp only [newStream, newBuilder, streamOf_def]
        cases hnew : env.NewBuilder t.Spec.Body (streamOf c) with
        | error e =>
          simp only [manageFailure_eq, Plan.outcome, updateOutcome_record]
          generalize updateOutcome env w _ = o
          cases o <;> simp [World.record]
        | ok b =>
          simp only [build]
          cases hbuild : b.Build with
          | error e =>
            simp only [manageFailure_eq, Plan.outcome, updateOutcome_record]
            generalize updateOutcome env w _ = o
            cases o <;> simp [World.record]
          | ok ms =>
            simp only [manageSuccess_eq, Plan.outcome, updateOutcome_record]
            generalize updateOutcome env w _ = o
            cases o <;> simp [World.record]

/-! ## Traces -/

theorem statusWrites_append (xs ys : List Call) :
    statusWrites (xs ++ ys) = statusWrites xs ++ statusWrites ys := by
  induction xs with
  | nil => rfl
  | cons x rest ih => cases x <;> simp [statusWrites, ih]

theorem passTrace_eq_calls (env : Env) (w : World) (req : Request) :
    passTrace env w req = (plan env w req).calls req := by
  unfold passTrace
  rw [Reconcile_eq_outcome]
  cases plan env w req with
  | fetchFailed e => simp [Plan.outcome, Plan.calls, World.record]
  | deleted => simp [Plan.outcome, Plan.calls, World.record]
  | report handed calls err =>
    simp only [Plan.outcome, Plan.calls]
    cases updateOutcome env w handed <;> simp

theorem planFor_report_noWrite (env : Env) (w : World) (req : Request)
    (c handed : Combination) (calls : List Call) (err : Option GoErr)
    (h : planFor env w req c = Plan.report handed calls err) :
    statusWrites calls = [] := by
  unfold planFor at h
  split at h
  · cases h
  · split at h
    · cases h; rfl
    · split at h
      · cases h; rfl
      · split at h <;> (cases h; rfl)

theorem plan_report_noWrite (env : Env) (w : World) (req : Request)
    (handed : Combination) (calls : List Call) (err : Option GoErr)
    (h : plan env w req = Plan.report handed calls err) :
    statusWrites calls = [] := by
  unfold plan at h
  split at h
  · cases h
  · exact planFor_report_noWrite env w req _ handed calls err h

/-- The status writes of a pass: the handed resource of a reporting plan. -/
theorem statusWrites_passTrace (env : Env) (w : World) (req : Request) :
    statusWrites (passTrace env w req) =
      match plan env w req with
      | Plan.report handed _ _ => [handed]
      | _ => [] := by
  rw [passTrace_eq_calls]
  cases h : plan env w req with
  | fetchFailed e => rfl
  | deleted => rfl
  | report handed calls err =>
    simp [Plan.calls, statusWrites_append, plan_report_noWrite env w req handed calls err h,
      statusWrites]

/-! ## Status write failures -/

/-- C2. Whenever a reconciliation reaches a status write (of the success
report or of any failure report) and that status update fails, `Reconcile`
returns a result whose `RequeueAfter` is `RequeueDefaultTime`, two seconds,
together with the error of the status update. -/
theorem status_write_failure_requeues (env : Env) (w : World) (req : Request)
    (c : Combination) (updateErr : GoErr)
    (hreach : c ∈ statusWrites (passTrace env w req))
    (hfail : updateOutcome env w c = some updateErr) :
    (Reconcile env w req).1.RequeueAfter = RequeueDefaultTime ∧
    RequeueDefaultTime = 2 * Second ∧
    (Reconcile env w req).2.1 = some updateErr := by
  rw [statusWrites_passTrace] at hreach
  rw [Reconcile_eq_outcome]
  cases h : plan env w req with
  | fetchFailed e => simp [h] at hreach
  | deleted => simp [h] at hreach
  | report handed calls err =>
    simp only [h, List.mem_singleton] at hreach
    subst hreach
    simp only [Plan.outcome, hfail]
    exact ⟨trivial, by decide, trivial⟩

theorem status_write_failure_requeues_witness :
    demoFailureHanded ∈ statusWrites (passTrace conflictEnv noTemplateWorld demoReq) ∧
    updateOutcome conflictEnv noTemplateWorld demoFailureHanded = some conflictErr ∧
    (Reconcile conflictEnv noTemplateWorld demoReq).1.RequeueAfter = RequeueDefaultTime ∧
    RequeueDefaultTime = 2 * Second ∧
    (Reconcile conflictEnv noTemplateWorld demoReq).2.1 = some conflictErr :=
  ⟨by decide, rfl,
   status_write_failure_requeues conflictEnv noTemplateWorld demoReq demoFailureHanded
     conflictErr (by decide) rfl⟩

/-- C3, as the claim states it, fails: with the template of `demoCombination`
missing and the status update in conflict, `Reconcile` requests the fixed
requeue and returns the conflict error, which neither is nor carries the
wrapped template error being reported. -/
theorem write_failure_hides_reported_error :
    lookupTemplate conflictEnv noTemplateWorld { Name := "t1" } =
      .error (NewNotFound "templates.combo.io" "t1") ∧
    statusWrites (passTrace conflictEnv noTemplateWorld demoReq) = [demoFailureHanded] ∧
    updateOutcome conflictEnv noTemplateWorld demoFailureHanded = some conflictErr ∧
    (Reconcile conflictEnv noTemplateWorld demoReq).1.RequeueAfter = RequeueDefaultTime ∧
    ¬ ∃ r, (Reconcile conflictEnv noTemplateWorld demoReq).2.1 = some r ∧
        r.carries demoTemplateErr = true := by
  refine ⟨rfl, by decide, rfl, by decide, ?_⟩
  rintro ⟨r, hr, hc⟩
  have h : (Reconcile conflictEnv noTemplateWorld demoReq).2.1 = some conflictErr := by decide
  rw [h] at hr
  cases hr
  revert hc
  decide

/-- C3, amended. When `manageFailure` reports a failure of kind `kind` with
wrapped error `err` and the status update fails with `updateErr`, it requests
the fixed-delay requeue and returns `updateErr` itself; `err` reaches only the
conditions of the resource handed to the failed update, and nothing is
stored. -/
theorem manageFailure_write_failed (env : Env) (w : World) (c : Combination)
    (kind : Condition) (err updateErr : GoErr)
    (hfail : updateOutcome env w
      (withConditions c (env.conditions.NewConditions env.Now (some err) kind)) =
        some updateErr) :
    manageFailure env w c kind err =
      ({ Requeue := false, RequeueAfter := RequeueDefaultTime }, some updateErr,
        w.record (Call.StatusUpdate
          (withConditions c (env.conditions.NewConditions env.Now (some err) kind)))) := by
  rw [manageFailure_eq, hfail]
  rfl

theorem manageFailure_write_failed_witness :
    manageFailure conflictEnv noTemplateWorld demoCombination
        specConditions.TemplateNotFoundCondition demoTemplateErr =
      ({ Requeue := false, RequeueAfter := RequeueDefaultTime }, some conflictErr,
        noTemplateWorld.record (Call.StatusUpdate demoFailureHanded)) :=
  manageFailure_write_failed conflictEnv noTemplateWorld demoCombination
    specConditions.TemplateNotFoundCondition demoTemplateErr conflictErr rfl

/-! ## Not-found errors -/

/-- What `IsNotFound` accepts: the reason `NotFound`, or a reason outside the
known ones together with code 404. -/
theorem IsNotFound_iff (e : GoErr) :
    e.IsNotFound = true ↔
      (GoErr.reasonAndCodeForError e).1 = StatusReasonNotFound ∨
      ((GoErr.reasonAndCodeForError e).1 ∉ knownReasons ∧
        (GoErr.reasonAndCodeForError e).2 = StatusNotFound) := by
  unfold GoErr.IsNotFound
  by_cases h1 : (GoErr.reasonAndCodeForError e).1 = StatusReasonNotFound
  · simp [h1]
  · by_cases h2 : (GoErr.reasonAndCodeForError e).1 ∉ knownReasons ∧
        (GoErr.reasonAndCodeForError e).2 = StatusNotFound
    · simp [h1, h2]
    · simp only [h1, h2, if_false, false_or]
      exact ⟨fun h => Bool.noConfusion h, fun h => h.elim⟩

/-- A status error of unknown reason and code 404 counts as not-found, also
when it is wrapped. -/
theorem IsNotFound_unknown_404 (msg text : String) :
    (GoErr.status StatusReasonUnknown StatusNotFound msg).IsNotFound = true ∧
    (GoErr.wrap text (GoErr.status StatusReasonUnknown StatusNotFound msg)).IsNotFound =
      true :=
  ⟨rfl, rfl⟩

/-- A status error of a known reason other than `NotFound` does not count as
not-found, whatever its code. -/
theorem IsNotFound_conflict (code : Int) (msg : String) :
    (GoErr.status StatusReasonConflict code msg).IsNotFound = false := by
  unfold GoErr.IsNotFound
  simp [GoErr.reasonAndCodeForError, StatusReasonConflict, StatusReasonNotFound, knownReasons]

/-! ## Short circuits -/

/-- C4. When the fetched Combination has a non-zero deletion timestamp,
`Reconcile` issues no call after the fetch (no template fetch, no stream,
builder or build call, no status write), leaves the cluster as it was, and
returns the empty result with a nil error. -/
theorem deletion_short_circuit (env : Env) (w : World) (req : Request) (c : Combination)
    (hget : lookupCombination env w req.NamespacedName = .ok c)
    (hdel : IsZero c.ObjectMeta.DeletionTimestamp = false) :
    Reconcile env w req =
      ({ Requeue := false, RequeueAfter := 0 }, none,
        w.record (Call.GetCombination req.NamespacedName)) ∧
    passTrace env w req = [Call.GetCombination req.NamespacedName] ∧
    statusWrites (passTrace env w req) = [] := by
  have hplan : plan env w req = Plan.deleted := by
    simp [plan, planFor, hget, hdel]
  refine ⟨?_, ?_, ?_⟩
  · rw [Reconcile_eq_outcome, hplan]; rfl
  · rw [passTrace_eq_calls, hplan]; rfl
  · rw [passTrace_eq_calls, hplan]; rfl

theorem deletion_short_circuit_witness :
    Reconcile demoEnv deletingWorld demoReq =
      ({ Requeue := false, RequeueAfter := 0 }, none,
        deletingWorld.record (Call.GetCombination demoReq.NamespacedName)) ∧
    passTrace demoEnv deletingWorld demoReq = [Call.GetCombination demoReq.NamespacedName] ∧
    statusWrites (passTrace demoEnv deletingWorld demoReq) = [] :=
  deletion_short_circuit demoEnv deletingWorld demoReq
    { demoCombination with
      ObjectMeta := { Name := "c1", Namespace := "ns", DeletionTimestamp := some 7 } }
    rfl rfl

/-- C5. When the fetch of the Combination answers not-found, `Reconcile`
issues no further call (in particular no status write), leaves the cluster as
it was, and returns the empty result with a nil error. -/
theorem not_found_short_circuit (env : Env) (w : World) (req : Request) (e : GoErr)
    (hget : lookupCombination env w req.NamespacedName = .error e)
    (hnf : e.IsNotFound = true) :
    Reconcile env w req =
      ({ Requeue := false, RequeueAfter := 0 }, none,
        w.record (Call.GetCombination req.NamespacedName)) ∧
    passTrace env w req = [Call.GetCombination req.NamespacedName] ∧
    statusWrites (passTrace env w req) = [] := by
  have hplan : plan env w req = Plan.fetchFailed e := by
    simp [plan, hget]
  refine ⟨?_, ?_, ?_⟩
  · rw [Reconcile_eq_outcome, hplan]; simp [Plan.outcome, IgnoreNotFound, hnf]
  · rw [passTrace_eq_calls, hplan]; rfl
  · rw [passTrace_eq_calls, hplan]; rfl

theorem not_found_short_circuit_witness :
    Reconcile demoEnv emptyWorld demoReq =
      ({ Requeue := false, RequeueAfter := 0 }, none,
        emptyWorld.record (Call.GetCombination demoReq.NamespacedName)) ∧
    passTrace demoEnv emptyWorld demoReq = [Call.GetCombination demoReq.NamespacedName] ∧
    statusWrites (passTrace demoEnv emptyWorld demoReq) = [] :=
  not_found_short_circuit demoEnv emptyWorld demoReq
    (NewNotFound "combinations.combo.io" "c1") rfl rfl

/-! ## Plans of the delegation steps -/

theorem streamOf_eq (c : Combination) :
    streamOf c = { args := formatArguments c.Spec.Arguments, solveAhead := true } := rfl

theorem plan_template_failed (env : Env) (w : World) (req : Request) (c : Combination)
    (e : GoErr)
    (hget : lookupCombination env w req.NamespacedName = .ok c)
    (hdel : IsZero c.ObjectMeta.DeletionTimestamp = true)
    (htpl : lookupTemplate env w { Name := c.Spec.Template } = .error e) :
    plan env w req =
      Plan.report
        (withConditions c (env.conditions.NewConditions env.Now
          (some (Errorf ("failed to retrieve " ++ c.Spec.Template ++ " template: ") e))
          env.conditions.TemplateNotFoundCondition))
        [Call.GetCombination req.NamespacedName, Call.GetTemplate { Name := c.Spec.Template }]
        (some (Errorf ("failed to retrieve " ++ c.Spec.Template ++ " template: ") e)) := by
  simp [plan, planFor, hget, hdel, htpl]

theorem plan_builder_failed (env : Env) (w : World) (req : Request) (c : Combination)
    (t : Template) (e : GoErr)
    (hget : lookupCombination env w req.NamespacedName = .ok c)
    (hdel : IsZero c.ObjectMeta.DeletionTimestamp = true)
    (htpl : lookupTemplate env w { Name := c.Spec.Template } = .ok t)
    (hnew : env.NewBuilder t.Spec.Body (streamOf c) = .error e) :
    plan env w req =
      Plan.report
        (withConditions c (env.conditions.NewConditions env.Now
          (some (Errorf ("failed to construct a builder out of " ++ t.ObjectMeta.Name ++
            " template body: ") e))
          env.conditions.TemplateBodyInvalid))
        [Call.GetCombination req.NamespacedName, Call.GetTemplate { Name := c.Spec.Template },
          Call.NewStream (streamOf c), Call.NewBuilder t.Spec.Body (streamOf c)]
        (some (Errorf ("failed to construct a builder out of " ++ t.ObjectMeta.Name ++
          " template body: ") e)) := by
  simp [plan, planFor, hget, hdel, htpl, hnew]

theorem plan_build_failed (env : Env) (w : World) (req : Request) (c : Combination)
    (t : Template) (b : Builder) (e : GoErr)
    (hget : lookupCombination env w req.NamespacedName = .ok c)
    (hdel : IsZero c.ObjectMeta.DeletionTimestamp = true)
    (htpl : lookupTemplate env w { Name := c.Spec.Template } = .ok t)
    (hnew : env.NewBuilder t.Spec.Body (streamOf c) = .ok b)
    (hbuild : b.Build = .error e) :
    plan env w req =
      Plan.report
        (withConditions c (env.conditions.NewConditions env.Now
          (some (Errorf ("failed to generate manifest " ++ c.ObjectMeta.Name ++
            " combinations: ") e))
          env.conditions.ManifestGenerationFailed))
        [Call.GetCombination req.NamespacedName, Call.GetTemplate { Name := c.Spec.Template },
          Call.NewStream (streamOf c), Call.NewBuilder t.Spec.Body (streamOf c), Call.Build]
        (some (Errorf ("failed to generate manifest " ++ c.ObjectMeta.Name ++
          " combinations: ") e)) := by
  simp [plan, planFor, hget, hdel, htpl, hnew, hbuild]

theorem plan_rendered (env : Env) (w : World) (req : Request) (c : Combination)
    (t : Template) (b : Builder) (ms : List String)
    (hget : lookupCombination env w req.NamespacedName = .ok c)
    (hdel : IsZero c.ObjectMeta.DeletionTimestamp = true)
    (htpl : lookupTemplate env w { Name := c.Spec.Template } = .ok t)
    (hnew : env.NewBuilder t.Spec.Body (streamOf c) = .ok b)
    (hbuild : b.Build = .ok ms) :
    plan env w req =
      Plan.report
        (withStatus c (env.conditions.NewConditions env.Now none
          (SuccessCondition env.conditions)) ms)
        [Call.GetCombination req.NamespacedName, Call.GetTemplate { Name := c.Spec.Template },
          Call.NewStream (streamOf c), Call.NewBuilder t.Spec.Body (streamOf c), Call.Build]
        none := by
  simp [plan, planFor, hget, hdel, htpl, hnew, hbuild]

/-! ## The stored objects -/

theorem find?_storeStatus (cs : List Combination) (h : Combination) (key : NamespacedName) :
    (storeStatus cs h).find? (fun c => decide (c.ObjectMeta.key = key)) =
      (cs.find? (fun c => decide (c.ObjectMeta.key = key))).map (fun o =>
        if o.ObjectMeta.key = h.ObjectMeta.key then { o with Status := h.Status } else o) := by
  unfold storeStatus
  rw [List.find?_map]
  congr 1
  congr 1
  funext o
  by_cases hh : o.ObjectMeta.key = h.ObjectMeta.key <;> simp [hh]

theorem any_storeStatus (cs : List Combination) (h : Combination) (key : NamespacedName) :
    (storeStatus cs h).any (fun c => decide (c.ObjectMeta.key = key)) =
      cs.any (fun c => decide (c.ObjectMeta.key = key)) := by
  unfold storeStatus
  rw [List.any_map]
  congr 1
  funext o
  by_cases hh : o.ObjectMeta.key = h.ObjectMeta.key <;> simp [hh]


theorem lookupCombination_stored (env : Env) (w : World) (key : NamespacedName)
    (c handed : Combination) (tr : List Call)
    (hget : lookupCombination env w key = .ok c)
    (hm : handed.ObjectMeta = c.ObjectMeta) (hs : handed.Spec = c.Spec) :
    lookupCombination env
      { w with combinations := storeStatus w.combinations handed, trace := tr } key =
        .ok handed := by
  unfold lookupCombination at hget ⊢
  cases hf : env.getFault key with
  | some e => simp [hf] at hget
  | none =>
    simp only [hf] at hget ⊢
    rw [find?_storeStatus]
    cases hfind : List.find? (fun c => decide (c.ObjectMeta.key = key)) w.combinations with
    | none => simp [hfind] at hget
    | some o =>
      simp only [hfind, Except.ok.injEq] at hget
      subst hget
      obtain ⟨hmeta, hspec, hstatus⟩ := handed
      simp only at hm hs
      subst hm hs
      simp

/-! ## Reports -/

/-- C6. When the Combination is not being deleted, the template fetch, the
builder construction over the template body and the solve-ahead stream of the
formatted arguments, the manifest generation and the status update all
succeed, then the resource written is the fetched one with `Status.Evaluation`
the generated manifests and `Status.Conditions` the condition builder applied
to now, no error and `SuccessCondition`; it is what the cluster then stores,
and `Reconcile` returns the empty result with a nil error. -/
theorem success_report (env : Env) (w : World) (req : Request) (c : Combination)
    (t : Template) (b : Builder) (ms : List String)
    (hget : lookupCombination env w req.NamespacedName = .ok c)
    (hdel : IsZero c.ObjectMeta.DeletionTimestamp = true)
    (htpl : lookupTemplate env w { Namespace := "", Name := c.Spec.Template } = .ok t)
    (hnew : env.NewBuilder t.Spec.Body
      { args := formatArguments c.Spec.Arguments, solveAhead := true } = .ok b)
    (hbuild : b.Build = .ok ms)
    (hupd : updateOutcome env w
      { ObjectMeta := c.ObjectMeta, Spec := c.Spec,
        Status := {
          Conditions := env.conditions.NewConditions env.Now none
            (SuccessCondition env.conditions),
          Evaluation := ms } } = none) :
    (Reconcile env w req).1 = { Requeue := false, RequeueAfter := 0 } ∧
    (Reconcile env w req).2.1 = none ∧
    statusWrites (passTrace env w req) =
      [{ ObjectMeta := c.ObjectMeta, Spec := c.Spec,
         Status := {
           Conditions := env.conditions.NewConditions env.Now none
             (SuccessCondition env.conditions),
           Evaluation := ms } }] ∧
    lookupCombination env (Reconcile env w req).2.2 req.NamespacedName =
      .ok { ObjectMeta := c.ObjectMeta, Spec := c.Spec,
            Status := {
              Conditions := env.conditions.NewConditions env.Now none
                (SuccessCondition env.conditions),
              Evaluation := ms } } := by
  have hplan := plan_rendered env w req c t b ms hget hdel htpl hnew hbuild
  have hupd' : updateOutcome env w (withStatus c (env.conditions.NewConditions env.Now none
      (SuccessCondition env.conditions)) ms) = none := hupd
  refine ⟨?_, ?_, ?_, ?_⟩
  · rw [Reconcile_eq_outcome, hplan]; simp only [Plan.outcome, hupd']
  · rw [Reconcile_eq_outcome, hplan]; simp only [Plan.outcome, hupd']
  · rw [statusWrites_passTrace, hplan]; rfl
  · rw [Reconcile_eq_outcome, hplan]; simp only [Plan.outcome, hupd']
    exact lookupCombination_stored env w req.NamespacedName c _ _ hget rfl rfl

theorem success_report_witness :
    (Reconcile demoEnv demoWorld demoReq).1 = { Requeue := false, RequeueAfter := 0 } ∧
    (Reconcile demoEnv demoWorld demoReq).2.1 = none ∧
    statusWrites (passTrace demoEnv demoWorld demoReq) =
      [{ ObjectMeta := demoCombination.ObjectMeta, Spec := demoCombination.Spec,
         Status := {
           Conditions := specConditions.NewConditions 42 none
             (SuccessCondition specConditions),
           Evaluation := ["manifest-dev", "manifest-prod"] } }] ∧
    lookupCombination demoEnv (Reconcile demoEnv demoWorld demoReq).2.2
        demoReq.NamespacedName =
      .ok { ObjectMeta := demoCombination.ObjectMeta, Spec := demoCombination.Spec,
            Status := {
              Conditions := specConditions.NewConditions 42 none
                (SuccessCondition specConditions),
              Evaluation := ["manifest-dev", "manifest-prod"] } } :=
  success_report demoEnv demoWorld demoReq demoCombination demoTemplate
    { Build := .ok ["manifest-dev", "manifest-prod"] } ["manifest-dev", "manifest-prod"]
    rfl rfl rfl rfl rfl rfl

/-- C7. On a failing pass (the template fetch, the builder construction or the
manifest generation fails) the resource handed to the status update is the
fetched Combination with only `Status.Conditions` replaced: `Status.Evaluation`,
the metadata and the spec are those of the fetched Combination. When the
update is served, that resource is what the cluster stores. -/
theorem failing_pass_keeps_evaluation (env : Env) (w : World) (req : Request)
    (c : Combination)
    (hget : lookupCombination env w req.NamespacedName = .ok c)
    (hdel : IsZero c.ObjectMeta.DeletionTimestamp = true)
    (hfail :
      (∃ e, lookupTemplate env w { Namespace := "", Name := c.Spec.Template } = .error e) ∨
      (∃ t e, lookupTemplate env w { Namespace := "", Name := c.Spec.Template } = .ok t ∧
        env.NewBuilder t.Spec.Body
          { args := formatArguments c.Spec.Arguments, solveAhead := true } = .error e) ∨
      (∃ t b e, lookupTemplate env w { Namespace := "", Name := c.Spec.Template } = .ok t ∧
        env.NewBuilder t.Spec.Body
          { args := formatArguments c.Spec.Arguments, solveAhead := true } = .ok b ∧
        b.Build = .error e)) :
    ∃ conds : List Condition,
      statusWrites (passTrace env w req) =
        [{ ObjectMeta := c.ObjectMeta, Spec := c.Spec,
           Status := { Conditions := conds, Evaluation := c.Status.Evaluation } }] ∧
      (updateOutcome env w
          { ObjectMeta := c.ObjectMeta, Spec := c.Spec,
            Status := { Conditions := conds, Evaluation := c.Status.Evaluation } } = none →
        lookupCombination env (Reconcile env w req).2.2 req.NamespacedName =
          .ok { ObjectMeta := c.ObjectMeta, Spec := c.Spec,
                Status := { Conditions := conds, Evaluation := c.Status.Evaluation } }) := by
  have key : ∀ (conds : List Condition) (calls : List Call) (err : Option GoErr),
      plan env w req = Plan.report (withConditions c conds) calls err →
      statusWrites (passTrace env w req) = [withConditions c conds] ∧
      (updateOutcome env w (withConditions c conds) = none →
        lookupCombination env (Reconcile env w req).2.2 req.NamespacedName =
          .ok (withConditions c conds)) := by
    intro conds calls err hplan
    refine ⟨?_, ?_⟩
    · rw [statusWrites_passTrace, hplan]
    · intro hupd
      rw [Reconcile_eq_outcome, hplan]
      simp only [Plan.outcome, hupd]
      exact lookupCombination_stored env w req.NamespacedName c _ _ hget rfl rfl
  rcases hfail with ⟨e, htpl⟩ | ⟨t, e, htpl, hnew⟩ | ⟨t, b, e, htpl, hnew, hbuild⟩
  · exact ⟨_, key _ _ _ (plan_template_failed env w req c e hget hdel htpl)⟩
  · exact ⟨_, key _ _ _ (plan_builder_failed env w req c t e hget hdel htpl hnew)⟩
  · exact ⟨_, key _ _ _ (plan_build_failed env w req c t b e hget hdel htpl hnew hbuild)⟩

theorem failing_pass_keeps_evaluation_witness :
    (∃ conds : List Condition,
      statusWrites (passTrace demoEnv noTemplateWorld demoReq) =
        [{ ObjectMeta := demoCombination.ObjectMeta, Spec := demoCombination.Spec,
           Status := { Conditions := conds, Evaluation := ["old-manifest"] } }] ∧
      (updateOutcome demoEnv noTemplateWorld
          { ObjectMeta := demoCombination.ObjectMeta, Spec := demoCombination.Spec,
            Status := { Conditions := conds, Evaluation := ["old-manifest"] } } = none →
        lookupCombination demoEnv (Reconcile demoEnv noTemplateWorld demoReq).2.2
            demoReq.NamespacedName =
          .ok { ObjectMeta := demoCombination.ObjectMeta, Spec := demoCombination.Spec,
                Status := { Conditions := conds, Evaluation := ["old-manifest"] } })) ∧
    (statusWrites (passTrace demoEnv noTemplateWorld demoReq)).map
        (fun h => h.Status.Conditions.map (fun k => (k.CondType, k.Status))) =
      [[("TemplateNotFound", "False")]] :=
  ⟨failing_pass_keeps_evaluation demoEnv noTemplateWorld demoReq demoCombination rfl rfl
    (Or.inl ⟨NewNotFound "templates.combo.io" "t1", rfl⟩), by decide⟩

/-- C8. Each failing step is reported under its own kind, after which no later
step runs. A failing template fetch is reported as `TemplateNotFoundCondition`
right after the two fetches; a failing builder construction as
`TemplateBodyInvalid` right after the stream and builder calls; a failing
manifest generation as `ManifestGenerationFailed` right after the build call.
In each case the single status write carries the conditions the condition
builder yields for now, the wrapped error and that kind. -/
theorem failure_classification (env : Env) (w : World) (req : Request) (c : Combination)
    (hget : lookupCombination env w req.NamespacedName = .ok c)
    (hdel : IsZero c.ObjectMeta.DeletionTimestamp = true) :
    (∀ e, lookupTemplate env w { Namespace := "", Name := c.Spec.Template } = .error e →
      passTrace env w req =
        [Call.GetCombination req.NamespacedName,
         Call.GetTemplate { Namespace := "", Name := c.Spec.Template },
         Call.StatusUpdate
           { ObjectMeta := c.ObjectMeta, Spec := c.Spec,
             Status := {
               Conditions := env.conditions.NewConditions env.Now
                 (some (Errorf ("failed to retrieve " ++ c.Spec.Template ++ " template: ") e))
                 env.conditions.TemplateNotFoundCondition,
               Evaluation := c.Status.Evaluation } }]) ∧
    (∀ t e, lookupTemplate env w { Namespace := "", Name := c.Spec.Template } = .ok t →
      env.NewBuilder t.Spec.Body
        { args := formatArguments c.Spec.Arguments, solveAhead := true } = .error e →
      passTrace env w req =
        [Call.GetCombination req.NamespacedName,
         Call.GetTemplate { Namespace := "", Name := c.Spec.Template },
         Call.NewStream { args := formatArguments c.Spec.Arguments, solveAhead := true },
         Call.NewBuilder t.Spec.Body
           { args := formatArguments c.Spec.Arguments, solveAhead := true },
         Call.StatusUpdate
           { ObjectMeta := c.ObjectMeta, Spec := c.Spec,
             Status := {
               Conditions := env.conditions.NewConditions env.Now
                 (some (Errorf ("failed to construct a builder out of " ++
                   t.ObjectMeta.Name ++ " template body: ") e))
                 env.conditions.TemplateBodyInvalid,
               Evaluation := c.Status.Evaluation } }]) ∧
    (∀ t b e, lookupTemplate env w { Namespace := "", Name := c.Spec.Template } = .ok t →
      env.NewBuilder t.Spec.Body
        { args := formatArguments c.Spec.Arguments, solveAhead := true } = .ok b →
      b.Build = .error e →
      passTrace env w req =
        [Call.GetCombination req.NamespacedName,
         Call.GetTemplate { Namespace := "", Name := c.Spec.Template },
         Call.NewStream { args := formatArguments c.Spec.Arguments, solveAhead := true },
         Call.NewBuilder t.Spec.Body
           { args := formatArguments c.Spec.Arguments, solveAhead := true },
         Call.Build,
         Call.StatusUpdate
           { ObjectMeta := c.ObjectMeta, Spec := c.Spec,
             Status := {
               Conditions := env.conditions.NewConditions env.Now
                 (some (Errorf ("failed to generate manifest " ++ c.ObjectMeta.Name ++
                   " combinations: ") e))
                 env.conditions.ManifestGenerationFailed,
               Evaluation := c.Status.Evaluation } }]) := by
  refine ⟨?_, ?_, ?_⟩
  · intro e htpl
    rw [passTrace_eq_calls, plan_template_failed env w req c e hget hdel htpl]
    rfl
  · intro t e htpl hnew
    rw [passTrace_eq_calls, plan_builder_failed env w req c t e hget hdel htpl hnew]
    rfl
  · intro t b e htpl hnew hbuild
    rw [passTrace_eq_calls, plan_build_failed env w req c t b e hget hdel htpl hnew hbuild]
    rfl

theorem failure_classification_witness :
    (statusWrites (passTrace demoEnv noTemplateWorld demoReq)).map
        (fun h => h.Status.Conditions.map (fun k => k.CondType)) = [["TemplateNotFound"]] ∧
    (statusWrites (passTrace badBodyEnv demoWorld demoReq)).map
        (fun h => h.Status.Conditions.map (fun k => k.CondType)) = [["TemplateBodyInvalid"]] ∧
    (statusWrites (passTrace badBuildEnv demoWorld demoReq)).map
        (fun h => h.Status.Conditions.map (fun k => k.CondType)) =
      [["ManifestGenerationFailed"]] := by
  have h1 := (failure_classification demoEnv noTemplateWorld demoReq demoCombination
    rfl rfl).1 (NewNotFound "templates.combo.io" "t1") rfl
  have h2 := (failure_classification badBodyEnv demoWorld demoReq demoCombination
    rfl rfl).2.1 demoTemplate (GoErr.plain "unexpected end of body") rfl rfl
  have h3 := (failure_classification badBuildEnv demoWorld demoReq demoCombination
    rfl rfl).2.2 demoTemplate { Build := .error (GoErr.plain "evaluation failed") }
    (GoErr.plain "evaluation failed") rfl rfl rfl
  rw [h1, h2, h3]
  exact ⟨rfl, rfl, rfl⟩

/-- C9. When a delegation step fails and the status update reporting it is
served, `Reconcile` returns the empty result (no requeue, no delay) together
with the wrapped error of that step: of the template fetch, of the builder
construction, or of the manifest generation. -/
theorem reported_failure_returns_wrapped_error (env : Env) (w : World) (req : Request)
    (c : Combination)
    (hget : lookupCombination env w req.NamespacedName = .ok c)
    (hdel : IsZero c.ObjectMeta.DeletionTimestamp = true) :
    (∀ e, lookupTemplate env w { Namespace := "", Name := c.Spec.Template } = .error e →
      updateOutcome env w
        { ObjectMeta := c.ObjectMeta, Spec := c.Spec,
          Status := {
            Conditions := env.conditions.NewConditions env.Now
              (some (Errorf ("failed to retrieve " ++ c.Spec.Template ++ " template: ") e))
              env.conditions.TemplateNotFoundCondition,
            Evaluation := c.Status.Evaluation } } = none →
      (Reconcile env w req).1 = { Requeue := false, RequeueAfter := 0 } ∧
      (Reconcile env w req).2.1 =
        some (Errorf ("failed to retrieve " ++ c.Spec.Template ++ " template: ") e)) ∧
    (∀ t e, lookupTemplate env w { Namespace := "", Name := c.Spec.Template } = .ok t →
      env.NewBuilder t.Spec.Body
        { args := formatArguments c.Spec.Arguments, solveAhead := true } = .error e →
      updateOutcome env w
        { ObjectMeta := c.ObjectMeta, Spec := c.Spec,
          Status := {
            Conditions := env.conditions.NewConditions env.Now
              (some (Errorf ("failed to construct a builder out of " ++
                t.ObjectMeta.Name ++ " template body: ") e))
              env.conditions.TemplateBodyInvalid,
            Evaluation := c.Status.Evaluation } } = none →
      (Reconcile env w req).1 = { Requeue := false, RequeueAfter := 0 } ∧
      (Reconcile env w req).2.1 =
        some (Errorf ("failed to construct a builder out of " ++
          t.ObjectMeta.Name ++ " template body: ") e)) ∧
    (∀ t b e, lookupTemplate env w { Namespace := "", Name := c.Spec.Template } = .ok t →
      env.NewBuilder t.Spec.Body
        { args := formatArguments c.Spec.Arguments, solveAhead := true } = .ok b →
      b.Build = .error e →
      updateOutcome env w
        { ObjectMeta := c.ObjectMeta, Spec := c.Spec,
          Status := {
            Conditions := env.conditions.NewConditions env.Now
              (some (Errorf ("failed to generate manifest " ++ c.ObjectMeta.Name ++
                " combinations: ") e))
              env.conditions.ManifestGenerationFailed,
            Evaluation := c.Status.Evaluation } } = none →
      (Reconcile env w req).1 = { Requeue := false, RequeueAfter := 0 } ∧
      (Reconcile env w req).2.1 =
        some (Errorf ("failed to generate manifest " ++ c.ObjectMeta.Name ++
          " combinations: ") e)) := by
  refine ⟨?_, ?_, ?_⟩
  · intro e htpl hupd
    rw [Reconcile_eq_outcome, plan_template_failed env w req c e hget hdel htpl]
    simp only [Plan.outcome, withConditions, hupd, and_self]
  · intro t e htpl hnew hupd
    rw [Reconcile_eq_outcome, plan_builder_failed env w req c t e hget hdel htpl hnew]
    simp only [Plan.outcome, withConditions, hupd, and_self]
  · intro t b e htpl hnew hbuild hupd
    rw [Reconcile_eq_outcome, plan_build_failed env w req c t b e hget hdel htpl hnew hbuild]
    simp only [Plan.outcome, withConditions, hupd, and_self]

theorem reported_failure_returns_wrapped_error_witness :
    (Reconcile demoEnv noTemplateWorld demoReq).1 = { Requeue := false, RequeueAfter := 0 } ∧
    (Reconcile demoEnv noTemplateWorld demoReq).2.1 =
      some (GoErr.wrap
        "failed to retrieve t1 template: templates.combo.io \"t1\" not found"
        (NewNotFound "templates.combo.io" "t1")) :=
  (reported_failure_returns_wrapped_error demoEnv noTemplateWorld demoReq demoCombination
    rfl rfl).1 (NewNotFound "templates.combo.io" "t1") rfl rfl

/-! ## Repeated reconciliation -/

theorem storeStatus_idem (cs : List Combination) (h : Combination) :
    storeStatus (storeStatus cs h) h = storeStatus cs h := by
  unfold storeStatus
  rw [List.map_map]
  congr 1
  funext o
  by_cases hh : o.ObjectMeta.key = h.ObjectMeta.key <;> simp [hh]

theorem updateOutcome_stored (env : Env) (w : World) (h x : Combination) (tr : List Call) :
    updateOutcome env
      { w with combinations := storeStatus w.combinations h, trace := tr } x =
      updateOutcome env w x := by
  unfold updateOutcome
  simp only [any_storeStatus]

theorem planFor_templates (env : Env) (w w' : World) (req : Request) (c : Combination)
    (h : w'.templates = w.templates) : planFor env w' req c = planFor env w req c := by
  unfold planFor lookupTemplate
  rw [h]

/-- A reporting plan hands over the fetched Combination with a new status, and
planning again from the handed resource gives the same plan. -/
theorem planFor_report_shape (env : Env) (w : World) (req : Request)
    (c handed : Combination) (calls : List Call) (err : Option GoErr)
    (h : planFor env w req c = Plan.report handed calls err) :
    handed.ObjectMeta = c.ObjectMeta ∧ handed.Spec = c.Spec ∧
    planFor env w req handed = Plan.report handed calls err := by
  unfold planFor at h
  cases hdel : IsZero c.ObjectMeta.DeletionTimestamp with
  | false => simp [hdel] at h
  | true =>
    simp only [hdel, Bool.true_eq_false, if_false] at h
    cases htpl : lookupTemplate env w { Name := c.Spec.Template } with
    | error e =>
      simp only [htpl, Plan.report.injEq] at h
      obtain ⟨rfl, rfl, rfl⟩ := h
      refine ⟨rfl, rfl, ?_⟩
      simp [planFor, withConditions, hdel, htpl]
    | ok t =>
      simp only [htpl] at h
      cases hnew : env.NewBuilder t.Spec.Body (streamOf c) with
      | error e =>
        simp only [hnew, Plan.report.injEq] at h
        obtain ⟨rfl, rfl, rfl⟩ := h
        refine ⟨rfl, rfl, ?_⟩
        have hnew' : env.NewBuilder t.Spec.Body
            { args := formatArguments c.Spec.Arguments, solveAhead := true } = .error e := hnew
        simp [planFor, withConditions, streamOf_eq, hdel, htpl, hnew']
      | ok b =>
        simp only [hnew] at h
        have hnew' : env.NewBuilder t.Spec.Body
            { args := formatArguments c.Spec.Arguments, solveAhead := true } = .ok b := hnew
        cases hbuild : b.Build with
        | error e =>
          simp only [hbuild, Plan.report.injEq] at h
          obtain ⟨rfl, rfl, rfl⟩ := h
          refine ⟨rfl, rfl, ?_⟩
          simp [planFor, withConditions, streamOf_eq, hdel, htpl, hnew', hbuild]
        | ok ms =>
          simp only [hbuild, Plan.report.injEq] at h
          obtain ⟨rfl, rfl, rfl⟩ := h
          refine ⟨rfl, rfl, ?_⟩
          simp [planFor, withStatus, streamOf_eq, hdel, htpl, hnew', hbuild]

/-- The plan of a second pass over the world left by a first pass. -/
theorem plan_after_pass (env : Env) (w : World) (req : Request) :
    plan env (Reconcile env w req).2.2 req = plan env w req := by
  rw [Reconcile_eq_outcome]
  cases hp : plan env w req with
  | fetchFailed e => exact hp
  | deleted => exact hp
  | report handed calls err =>
    simp only [Plan.outcome]
    cases hupd : updateOutcome env w handed with
    | some ue => exact hp
    | none =>
      simp only
      unfold plan at hp ⊢
      cases hget : lookupCombination env w req.NamespacedName with
      | error e => simp [hget] at hp
      | ok c =>
        simp only [hget] at hp
        obtain ⟨hm, hs, hre⟩ := planFor_report_shape env w req c handed calls err hp
        rw [lookupCombination_stored env w req.NamespacedName c handed _ hget hm hs]
        simp only
        exact (planFor_templates env w _ req handed rfl).trans hre

theorem updateOutcome_after_pass (env : Env) (w : World) (req : Request) (x : Combination) :
    updateOutcome env (Reconcile env w req).2.2 x = updateOutcome env w x := by
  rw [Reconcile_eq_outcome]
  cases plan env w req with
  | fetchFailed e => rfl
  | deleted => rfl
  | report handed calls err =>
    simp only [Plan.outcome]
    cases updateOutcome env w handed with
    | some ue => rfl
    | none => exact updateOutcome_stored env w handed x _

theorem outcome_result_congr (env : Env) (w w1 : World) (req : Request) (p : Plan)
    (h : ∀ x, updateOutcome env w1 x = updateOutcome env w x) :
    (p.outcome env w1 req).1 = (p.outcome env w req).1 ∧
    (p.outcome env w1 req).2.1 = (p.outcome env w req).2.1 := by
  cases p with
  | fetchFailed e => exact ⟨rfl, rfl⟩
  | deleted => exact ⟨rfl, rfl⟩
  | report handed calls err =>
    simp only [Plan.outcome, h]
    cases updateOutcome env w handed <;> exact ⟨rfl, rfl⟩

theorem outcome_combinations_idem (env : Env) (w : World) (req : Request) (p : Plan) :
    (p.outcome env (p.outcome env w req).2.2 req).2.2.combinations =
      (p.outcome env w req).2.2.combinations := by
  cases p with
  | fetchFailed e => rfl
  | deleted => rfl
  | report handed calls err =>
    simp only [Plan.outcome]
    cases h : updateOutcome env w handed with
    | some ue =>
      have h' : updateOutcome env
          { w with trace := w.trace ++ (calls ++ [Call.StatusUpdate handed]) } handed =
            some ue := h
      simp only [h']
    | none =>
      simp only [updateOutcome_stored, h]
      exact storeStatus_idem w.combinations handed

/-- C10. Reconciling again in the world a first reconciliation left behind
(same collaborators, same clock reading) hands the same resources to the
status update (so the same `Status.Conditions` and `Status.Evaluation`),
returns the same result and the same error, and leaves the same stored
Combinations. -/
theorem Reconcile_idempotent (env : Env) (w : World) (req : Request) :
    (Reconcile env (Reconcile env w req).2.2 req).1 = (Reconcile env w req).1 ∧
    (Reconcile env (Reconcile env w req).2.2 req).2.1 = (Reconcile env w req).2.1 ∧
    statusWrites (passTrace env (Reconcile env w req).2.2 req) =
      statusWrites (passTrace env w req) ∧
    (Reconcile env (Reconcile env w req).2.2 req).2.2.combinations =
      (Reconcile env w req).2.2.combinations := by
  have hplan := plan_after_pass env w req
  have hupd := updateOutcome_after_pass env w req
  have hres := outcome_result_congr env w (Reconcile env w req).2.2 req (plan env w req) hupd
  refine ⟨?_, ?_, ?_, ?_⟩
  · rw [Reconcile_eq_outcome env (Reconcile env w req).2.2, hplan, hres.1,
      ← Reconcile_eq_outcome]
  · rw [Reconcile_eq_outcome env (Reconcile env w req).2.2, hplan, hres.2,
      ← Reconcile_eq_outcome]
  · rw [statusWrites_passTrace, statusWrites_passTrace, hplan]
  · rw [Reconcile_eq_outcome env (Reconcile env w req).2.2, hplan,
      Reconcile_eq_outcome env w]
    exact outcome_combinations_idem env w req (plan env w req)

/-! ## Worlds with the same stored objects -/

theorem plan_congr (env : Env) (w w1 : World) (req : Request)
    (hc : w1.combinations = w.combinations) (ht : w1.templates = w.templates) :
    plan env w1 req = plan env w req := by
  unfold plan planFor lookupCombination lookupTemplate
  rw [hc, ht]

theorem updateOutcome_congr (env : Env) (w w1 : World) (x : Combination)
    (hc : w1.combinations = w.combinations) :
    updateOutcome env w1 x = updateOutcome env w x := by
  unfold updateOutcome
  rw [hc]

theorem outcome_combinations_congr (env : Env) (w w1 : World) (req : Request) (p : Plan)
    (hc : w1.combinations = w.combinations) :
    (p.outcome env w1 req).2.2.combinations = (p.outcome env w req).2.2.combinations := by
  cases p with
  | fetchFailed e => exact hc
  | deleted => exact hc
  | report handed calls err =>
    simp only [Plan.outcome, updateOutcome_congr env w w1 handed hc]
    cases updateOutcome env w handed with
    | some ue => exact hc
    | none => simp only [hc]

/-- A pass depends on the world only through the stored objects. -/
theorem Reconcile_congr (env : Env) (w w1 : World) (req : Request)
    (hc : w1.combinations = w.combinations) (ht : w1.templates = w.templates) :
    (Reconcile env w1 req).1 = (Reconcile env w req).1 ∧
    (Reconcile env w1 req).2.1 = (Reconcile env w req).2.1 ∧
    (Reconcile env w1 req).2.2.combinations = (Reconcile env w req).2.2.combinations ∧
    passTrace env w1 req = passTrace env w req := by
  have hres := outcome_result_congr env w w1 req (plan env w req)
    (fun x => updateOutcome_congr env w w1 x hc)
  refine ⟨?_, ?_, ?_, ?_⟩
  · rw [Reconcile_eq_outcome, Reconcile_eq_outcome, plan_congr env w w1 req hc ht, hres.1]
  · rw [Reconcile_eq_outcome, Reconcile_eq_outcome, plan_congr env w w1 req hc ht, hres.2]
  · rw [Reconcile_eq_outcome, Reconcile_eq_outcome, plan_congr env w w1 req hc ht]
    exact outcome_combinations_congr env w w1 req _ hc
  · rw [passTrace_eq_calls, passTrace_eq_calls, plan_congr env w w1 req hc ht]

theorem lookupCombination_congr (env : Env) (w w1 : World) (key : NamespacedName)
    (hc : w1.combinations = w.combinations) :
    lookupCombination env w1 key = lookupCombination env w key := by
  unfold lookupCombination
  rw [hc]

/-- The outcome of a pass on which every delegation step succeeds. -/
theorem Reconcile_rendered (env : Env) (w : World) (req : Request) (c : Combination)
    (t : Template) (b : Builder) (ms : List String)
    (hget : lookupCombination env w req.NamespacedName = .ok c)
    (hdel : IsZero c.ObjectMeta.DeletionTimestamp = true)
    (htpl : lookupTemplate env w { Name := c.Spec.Template } = .ok t)
    (hnew : env.NewBuilder t.Spec.Body (streamOf c) = .ok b)
    (hbuild : b.Build = .ok ms) :
    Reconcile env w req =
      match updateOutcome env w (withStatus c (env.conditions.NewConditions env.Now none
          (SuccessCondition env.conditions)) ms) with
      | some ue =>
        ({ RequeueAfter := RequeueDefaultTime }, some ue,
          { w with trace := w.trace ++
            ([Call.GetCombination req.NamespacedName,
              Call.GetTemplate { Name := c.Spec.Template },
              Call.NewStream (streamOf c), Call.NewBuilder t.Spec.Body (streamOf c),
              Call.Build] ++
             [Call.StatusUpdate (withStatus c (env.conditions.NewConditions env.Now none
               (SuccessCondition env.conditions)) ms)]) })
      | none =>
        ({}, none,
          { w with
            combinations := storeStatus w.combinations
              (withStatus c (env.conditions.NewConditions env.Now none
                (SuccessCondition env.conditions)) ms)
            trace := w.trace ++
              ([Call.GetCombination req.NamespacedName,
                Call.GetTemplate { Name := c.Spec.Template },
                Call.NewStream (streamOf c), Call.NewBuilder t.Spec.Body (streamOf c),
                Call.Build] ++
               [Call.StatusUpdate (withStatus c (env.conditions.NewConditions env.Now none
                 (SuccessCondition env.conditions)) ms)]) }) := by
  rw [Reconcile_eq_outcome, plan_rendered env w req c t b ms hget hdel htpl hnew hbuild]
  rfl

/-! ## Retry after a failed status write -/

/-- C11. On a pass whose delegation steps all succeed but whose status update
fails, `Reconcile` returns the update error with `RequeueAfter` two seconds
and leaves the stored Combinations unchanged. A later pass with the same
collaborators whose status update is served then returns no error and leaves
the same stored Combinations as a single pass, from the original world, whose
update is served at once: the stored Combination carries the generated
manifests as `Status.Evaluation` and the success conditions of the condition
builder, which depend on the pass only through the clock reading. -/
theorem retry_converges (env : Env) (w : World) (req : Request) (c : Combination)
    (t : Template) (b : Builder) (ms : List String) (updateErr : GoErr)
    (served : Combination → Option GoErr) (later : Time)
    (hget : lookupCombination env w req.NamespacedName = .ok c)
    (hdel : IsZero c.ObjectMeta.DeletionTimestamp = true)
    (htpl : lookupTemplate env w { Namespace := "", Name := c.Spec.Template } = .ok t)
    (hnew : env.NewBuilder t.Spec.Body
      { args := formatArguments c.Spec.Arguments, solveAhead := true } = .ok b)
    (hbuild : b.Build = .ok ms)
    (hfail : updateOutcome env w
      { ObjectMeta := c.ObjectMeta, Spec := c.Spec,
        Status := {
          Conditions := env.conditions.NewConditions env.Now none
            (SuccessCondition env.conditions),
          Evaluation := ms } } = some updateErr)
    (hserved : updateOutcome { env with updateFault := served, Now := later } w
      { ObjectMeta := c.ObjectMeta, Spec := c.Spec,
        Status := {
          Conditions := env.conditions.NewConditions later none
            (SuccessCondition env.conditions),
          Evaluation := ms } } = none) :
    (Reconcile env w req).1.RequeueAfter = RequeueDefaultTime ∧
    RequeueDefaultTime = 2 * Second ∧
    (Reconcile env w req).2.1 = some updateErr ∧
    (Reconcile env w req).2.2.combinations = w.combinations ∧
    (Reconcile { env with updateFault := served, Now := later }
      (Reconcile env w req).2.2 req).2.1 = none ∧
    (Reconcile { env with updateFault := served, Now := later }
      (Reconcile env w req).2.2 req).2.2.combinations =
      (Reconcile { env with updateFault := served, Now := later } w req).2.2.combinations ∧
    lookupCombination { env with updateFault := served, Now := later }
      (Reconcile { env with updateFault := served, Now := later }
        (Reconcile env w req).2.2 req).2.2 req.NamespacedName =
      .ok { ObjectMeta := c.ObjectMeta, Spec := c.Spec,
            Status := {
              Conditions := env.conditions.NewConditions later none
                (SuccessCondition env.conditions),
              Evaluation := ms } } := by
  have hfail' : updateOutcome env w (withStatus c (env.conditions.NewConditions env.Now none
      (SuccessCondition env.conditions)) ms) = some updateErr := hfail
  have h1 := Reconcile_rendered env w req c t b ms hget hdel htpl hnew hbuild
  simp only [hfail'] at h1
  have hc : (Reconcile env w req).2.2.combinations = w.combinations := by rw [h1]
  have ht : (Reconcile env w req).2.2.templates = w.templates := by rw [h1]
  have hcongr := Reconcile_congr { env with updateFault := served, Now := later } w
    (Reconcile env w req).2.2 req hc ht
  have h2 := Reconcile_rendered { env with updateFault := served, Now := later } w req c t b ms
    hget hdel htpl hnew hbuild
  have hserved' : updateOutcome { env with updateFault := served, Now := later } w
      (withStatus c (env.conditions.NewConditions later none
        (SuccessCondition env.conditions)) ms) = none := hserved
  simp only [hserved'] at h2
  refine ⟨?_, by decide, ?_, hc, ?_, hcongr.2.2.1, ?_⟩
  · rw [h1]
  · rw [h1]
  · rw [hcongr.2.1, h2]
  · rw [lookupCombination_congr _ _ _ req.NamespacedName hcongr.2.2.1, h2]
    exact lookupCombination_stored _ w req.NamespacedName c _ _ hget rfl rfl

theorem retry_converges_witness :
    (Reconcile conflictEnv demoWorld demoReq).1.RequeueAfter = RequeueDefaultTime ∧
    RequeueDefaultTime = 2 * Second ∧
    (Reconcile conflictEnv demoWorld demoReq).2.1 = some conflictErr ∧
    (Reconcile conflictEnv demoWorld demoReq).2.2.combinations = demoWorld.combinations ∧
    (Reconcile retryEnv (Reconcile conflictEnv demoWorld demoReq).2.2 demoReq).2.1 = none ∧
    (Reconcile retryEnv (Reconcile conflictEnv demoWorld demoReq).2.2 demoReq).2.2.combinations =
      (Reconcile retryEnv demoWorld demoReq).2.2.combinations ∧
    lookupCombination retryEnv
      (Reconcile retryEnv (Reconcile conflictEnv demoWorld demoReq).2.2 demoReq).2.2
      demoReq.NamespacedName =
      .ok { ObjectMeta := demoCombination.ObjectMeta, Spec := demoCombination.Spec,
            Status := {
              Conditions := specConditions.NewConditions 50 none
                (SuccessCondition specConditions),
              Evaluation := ["manifest-dev", "manifest-prod"] } } :=
  retry_converges conflictEnv demoWorld demoReq demoCombination demoTemplate
    { Build := .ok ["manifest-dev", "manifest-prod"] } ["manifest-dev", "manifest-prod"]
    conflictErr (fun _ => none) 50 rfl rfl rfl rfl rfl rfl rfl

/-! ## Prior conditions -/

theorem planFor_withConditions (env : Env) (w : World) (req : Request) (c : Combination)
    (prior : List Condition) :
    planFor env w req (withConditions c prior) = planFor env w req c := rfl

theorem planFor_report_conditions (env : Env) (w : World) (req : Request)
    (c handed : Combination) (calls : List Call) (err : Option GoErr)
    (h : planFor env w req c = Plan.report handed calls err) :
    ∃ kind, handed.Status.Conditions = env.conditions.NewConditions env.Now err kind := by
  unfold planFor at h
  split at h
  · cases h
  · split at h
    · cases h; exact ⟨_, rfl⟩
    · split at h
      · cases h; exact ⟨_, rfl⟩
      · split at h <;> (cases h; exact ⟨_, rfl⟩)

/-- C12. The written conditions do not depend on the conditions stored before.
When two worlds answer the fetch with Combinations that differ only in their
prior `Status.Conditions` (same templates, same collaborators and clock), the
passes hand the same resource, so the same `Status.Conditions`, to the status
update; every written condition list is the output of the condition builder
for this pass. -/
theorem written_conditions_ignore_prior (env : Env) (w w' : World) (req : Request)
    (c : Combination) (prior : List Condition)
    (hget : lookupCombination env w req.NamespacedName = .ok c)
    (hget' : lookupCombination env w' req.NamespacedName =
      .ok { ObjectMeta := c.ObjectMeta, Spec := c.Spec,
            Status := { Conditions := prior, Evaluation := c.Status.Evaluation } })
    (htpl : w'.templates = w.templates) :
    statusWrites (passTrace env w' req) = statusWrites (passTrace env w req) ∧
    (statusWrites (passTrace env w' req)).map (fun h => h.Status.Conditions) =
      (statusWrites (passTrace env w req)).map (fun h => h.Status.Conditions) ∧
    ∀ h ∈ statusWrites (passTrace env w req),
      ∃ err kind, h.Status.Conditions = env.conditions.NewConditions env.Now err kind := by
  have hplan : plan env w' req = plan env w req := by
    unfold plan
    rw [hget, hget']
    simp only
    rw [planFor_templates env w w' req _ htpl]
    exact planFor_withConditions env w req c prior
  have hw : statusWrites (passTrace env w' req) = statusWrites (passTrace env w req) := by
    rw [statusWrites_passTrace, statusWrites_passTrace, hplan]
  refine ⟨hw, by rw [hw], ?_⟩
  intro h hmem
  rw [statusWrites_passTrace] at hmem
  cases hp : plan env w req with
  | fetchFailed e => simp [hp] at hmem
  | deleted => simp [hp] at hmem
  | report handed calls err =>
    simp only [hp, List.mem_singleton] at hmem
    subst hmem
    unfold plan at hp
    rw [hget] at hp
    obtain ⟨kind, hk⟩ := planFor_report_conditions env w req c h calls err hp
    exact ⟨err, kind, hk⟩

theorem written_conditions_ignore_prior_witness :
    statusWrites (passTrace demoEnv staleWorld demoReq) =
      statusWrites (passTrace demoEnv demoWorld demoReq) ∧
    (statusWrites (passTrace demoEnv staleWorld demoReq)).map (fun h => h.Status.Conditions) =
      (statusWrites (passTrace demoEnv demoWorld demoReq)).map
        (fun h => h.Status.Conditions) ∧
    ∀ h ∈ statusWrites (passTrace demoEnv demoWorld demoReq),
      ∃ err kind, h.Status.Conditions = specConditions.NewConditions 42 err kind :=
  written_conditions_ignore_prior demoEnv demoWorld staleWorld demoReq demoCombination
    [staleCondition] rfl rfl rfl

/-! ## Order of the calls -/

theorem planFor_report_steps (env : Env) (w : World) (req : Request)
    (c handed : Combination) (calls : List Call) (err : Option GoErr)
    (h : planFor env w req c = Plan.report handed calls err) :
    calls.map Call.step = tableOrder.take 2 ∨ calls.map Call.step = tableOrder.take 4 ∨
    calls.map Call.step = tableOrder := by
  unfold planFor at h
  split at h
  · cases h
  · split at h
    · cases h; exact Or.inl rfl
    · split at h
      · cases h; exact Or.inr (Or.inl rfl)
      · split at h <;> (cases h; exact Or.inr (Or.inr rfl))

/-- The steps of a pass take one of four shapes. -/
theorem passTrace_steps (env : Env) (w : World) (req : Request) :
    (passTrace env w req).map Call.step = tableOrder.take 1 ∨
    (passTrace env w req).map Call.step = tableOrder.take 2 ++ [Step.statusWrite] ∨
    (passTrace env w req).map Call.step = tableOrder.take 4 ++ [Step.statusWrite] ∨
    (passTrace env w req).map Call.step = tableOrder ++ [Step.statusWrite] := by
  rw [passTrace_eq_calls]
  cases hp : plan env w req with
  | fetchFailed e => exact Or.inl rfl
  | deleted => exact Or.inl rfl
  | report handed calls err =>
    have hsteps : calls.map Call.step = tableOrder.take 2 ∨
        calls.map Call.step = tableOrder.take 4 ∨ calls.map Call.step = tableOrder := by
      unfold plan at hp
      split at hp
      · cases hp
      · exact planFor_report_steps env w req _ handed calls err hp
    simp only [Plan.calls, List.map_append, List.map_cons, List.map_nil, Call.step]
    rcases hsteps with h | h | h
    · exact Or.inr (Or.inl (by rw [h]))
    · exact Or.inr (Or.inr (Or.inl (by rw [h])))
    · exact Or.inr (Or.inr (Or.inr (by rw [h])))

theorem statusWrites_length (cs : List Call) :
    (statusWrites cs).length = (cs.map Call.step).count Step.statusWrite := by
  induction cs with
  | nil => rfl
  | cons x rest ih => cases x <;> simp [statusWrites, Call.step, ih]

/-- C13. The calls of every pass follow the order of the table: they are a
non-empty prefix of fetch Combination, fetch Template, construct stream,
construct renderer, generate manifests, possibly followed by one status
write. No step occurs twice, a status write is the last call of its pass, and
a pass issues at most one status write. -/
theorem calls_follow_table_order (env : Env) (w : World) (req : Request) :
    (∃ pre, pre <+: tableOrder ∧ pre ≠ [] ∧
      ((passTrace env w req).map Call.step = pre ∨
       (passTrace env w req).map Call.step = pre ++ [Step.statusWrite])) ∧
    ((passTrace env w req).map Call.step).Nodup ∧
    (∀ before after, passTrace env w req = before ++ after →
      Step.statusWrite ∈ before.map Call.step → after = []) ∧
    (statusWrites (passTrace env w req)).length ≤ 1 := by
  have hshape := passTrace_steps env w req
  have hlast : ∀ (steps : List Step), (steps = tableOrder.take 1 ∨
      steps = tableOrder.take 2 ++ [Step.statusWrite] ∨
      steps = tableOrder.take 4 ++ [Step.statusWrite] ∨
      steps = tableOrder ++ [Step.statusWrite]) →
      ∀ xs ys : List Step, steps = xs ++ ys → Step.statusWrite ∈ xs → ys = [] := by
    intro steps hs xs ys hsplit hmem
    have hend : Step.statusWrite ∉ steps ∨
        ∃ pre, steps = pre ++ [Step.statusWrite] ∧ Step.statusWrite ∉ pre := by
      rcases hs with h | h | h | h
      · exact Or.inl (by rw [h]; decide)
      · exact Or.inr ⟨_, h, by decide⟩
      · exact Or.inr ⟨_, h, by decide⟩
      · exact Or.inr ⟨_, h, by decide⟩
    rcases hend with hend | ⟨pre, hpre, hnot⟩
    · exfalso
      apply hend
      rw [hsplit]
      exact List.mem_append_left _ hmem
    · rcases List.eq_nil_or_concat ys with hnil | ⟨ys1, y, hys⟩
      · exact hnil
      · exfalso
        rw [hsplit, hys, List.concat_eq_append, ← List.append_assoc] at hpre
        have hinj := List.append_inj' hpre rfl
        apply hnot
        rw [← hinj.1]
        exact List.mem_append_left _ hmem
  refine ⟨?_, ?_, ?_, ?_⟩
  · rcases hshape with h | h | h | h
    · exact ⟨tableOrder.take 1, by decide, by decide, Or.inl h⟩
    · exact ⟨tableOrder.take 2, by decide, by decide, Or.inr h⟩
    · exact ⟨tableOrder.take 4, by decide, by decide, Or.inr h⟩
    · exact ⟨tableOrder, by decide, by decide, Or.inr h⟩
  · rcases hshape with h | h | h | h <;> (rw [h]; decide)
  · intro before after hsplit hmem
    have := hlast _ hshape (before.map Call.step) (after.map Call.step)
      (by rw [hsplit, List.map_append]) hmem
    simpa using this
  · rw [statusWrites_length]
    rcases hshape with h | h | h | h <;> (rw [h]; decide)

/-! ## Wrapped errors -/

/-- C14. The error of a failing delegation step is wrapped before use. The
wrapped error has as text the prefix naming the operation and the resource
(the template name of the spec, the name of the fetched template, the name of
the Combination) followed by the text of the original error, and unwraps to
the original error. It is this wrapped error that goes to the condition
builder for the status write, and that `Reconcile` returns when the status
update is served. -/
theorem delegation_errors_are_wrapped (env : Env) (w : World) (req : Request)
    (c : Combination)
    (hget : lookupCombination env w req.NamespacedName = .ok c)
    (hdel : IsZero c.ObjectMeta.DeletionTimestamp = true) :
    (∀ e, lookupTemplate env w { Namespace := "", Name := c.Spec.Template } = .error e →
      ∃ wrapped : GoErr,
        wrapped.Error =
          "failed to retrieve " ++ c.Spec.Template ++ " template: " ++ e.Error ∧
        wrapped.Unwrap = some e ∧ wrapped.carries e = true ∧
        statusWrites (passTrace env w req) =
          [{ ObjectMeta := c.ObjectMeta, Spec := c.Spec,
             Status := {
               Conditions := env.conditions.NewConditions env.Now (some wrapped)
                 env.conditions.TemplateNotFoundCondition,
               Evaluation := c.Status.Evaluation } }] ∧
        (updateOutcome env w
            { ObjectMeta := c.ObjectMeta, Spec := c.Spec,
              Status := {
                Conditions := env.conditions.NewConditions env.Now (some wrapped)
                  env.conditions.TemplateNotFoundCondition,
                Evaluation := c.Status.Evaluation } } = none →
          (Reconcile env w req).2.1 = some wrapped)) ∧
    (∀ t e, lookupTemplate env w { Namespace := "", Name := c.Spec.Template } = .ok t →
      env.NewBuilder t.Spec.Body
        { args := formatArguments c.Spec.Arguments, solveAhead := true } = .error e →
      ∃ wrapped : GoErr,
        wrapped.Error =
          "failed to construct a builder out of " ++ t.ObjectMeta.Name ++
            " template body: " ++ e.Error ∧
        wrapped.Unwrap = some e ∧ wrapped.carries e = true ∧
        statusWrites (passTrace env w req) =
          [{ ObjectMeta := c.ObjectMeta, Spec := c.Spec,
             Status := {
               Conditions := env.conditions.NewConditions env.Now (some wrapped)
                 env.conditions.TemplateBodyInvalid,
               Evaluation := c.Status.Evaluation } }] ∧
        (updateOutcome env w
            { ObjectMeta := c.ObjectMeta, Spec := c.Spec,
              Status := {
                Conditions := env.conditions.NewConditions env.Now (some wrapped)
                  env.conditions.TemplateBodyInvalid,
                Evaluation := c.Status.Evaluation } } = none →
          (Reconcile env w req).2.1 = some wrapped)) ∧
    (∀ t b e, lookupTemplate env w { Namespace := "", Name := c.Spec.Template } = .ok t →
      env.NewBuilder t.Spec.Body
        { args := formatArguments c.Spec.Arguments, solveAhead := true } = .ok b →
      b.Build = .error e →
      ∃ wrapped : GoErr,
        wrapped.Error =
          "failed to generate manifest " ++ c.ObjectMeta.Name ++
            " combinations: " ++ e.Error ∧
        wrapped.Unwrap = some e ∧ wrapped.carries e = true ∧
        statusWrites (passTrace env w req) =
          [{ ObjectMeta := c.ObjectMeta, Spec := c.Spec,
             Status := {
               Conditions := env.conditions.NewConditions env.Now (some wrapped)
                 env.conditions.ManifestGenerationFailed,
               Evaluation := c.Status.Evaluation } }] ∧
        (updateOutcome env w
            { ObjectMeta := c.ObjectMeta, Spec := c.Spec,
              Status := {
                Conditions := env.conditions.NewConditions env.Now (some wrapped)
                  env.conditions.ManifestGenerationFailed,
                Evaluation := c.Status.Evaluation } } = none →
          (Reconcile env w req).2.1 = some wrapped)) := by
  have hcar : ∀ (pre : String) (e : GoErr), (Errorf pre e).carries e = true := by
    intro pre e
    cases e <;> simp [Errorf, GoErr.carries, GoErr.chain]
  refine ⟨?_, ?_, ?_⟩
  · intro e htpl
    have hplan := plan_template_failed env w req c e hget hdel htpl
    refine ⟨Errorf ("failed to retrieve " ++ c.Spec.Template ++ " template: ") e,
      rfl, rfl, hcar _ e, ?_, ?_⟩
    · rw [statusWrites_passTrace, hplan]; rfl
    · intro hupd
      rw [Reconcile_eq_outcome, hplan]
      simp only [Plan.outcome, withConditions, hupd]
  · intro t e htpl hnew
    have hplan := plan_builder_failed env w req c t e hget hdel htpl hnew
    refine ⟨Errorf ("failed to construct a builder out of " ++ t.ObjectMeta.Name ++
      " template body: ") e, rfl, rfl, hcar _ e, ?_, ?_⟩
    · rw [statusWrites_passTrace, hplan]; rfl
    · intro hupd
      rw [Reconcile_eq_outcome, hplan]
      simp only [Plan.outcome, withConditions, hupd]
  · intro t b e htpl hnew hbuild
    have hplan := plan_build_failed env w req c t b e hget hdel htpl hnew hbuild
    refine ⟨Errorf ("failed to generate manifest " ++ c.ObjectMeta.Name ++
      " combinations: ") e, rfl, rfl, hcar _ e, ?_, ?_⟩
    · rw [statusWrites_passTrace, hplan]; rfl
    · intro hupd
      rw [Reconcile_eq_outcome, hplan]
      simp only [Plan.outcome, withConditions, hupd]

theorem delegation_errors_are_wrapped_witness :
    ∃ wrapped : GoErr,
      wrapped.Error =
        "failed to construct a builder out of t1 template body: unexpected end of body" ∧
      wrapped.Unwrap = some (GoErr.plain "unexpected end of body") ∧
      (Reconcile badBodyEnv demoWorld demoReq).2.1 = some wrapped := by
  obtain ⟨wrapped, htext, hun, _, _, hret⟩ :=
    (delegation_errors_are_wrapped badBodyEnv demoWorld demoReq demoCombination
      rfl rfl).2.1 demoTemplate (GoErr.plain "unexpected end of body") rfl rfl
  refine ⟨wrapped, ?_, hun, ?_⟩
  · rw [htext]; decide
  · apply hret
    have hw : wrapped = GoErr.wrap
        "failed to construct a builder out of t1 template body: unexpected end of body"
        (GoErr.plain "unexpected end of body") := by
      cases wrapped with
      | status r k m => cases hun
      | plain m => cases hun
      | wrap text cause =>
        simp only [GoErr.Unwrap, Option.some.injEq] at hun
        simp only [GoErr.Error] at htext
        rw [hun, htext]
        decide
    rw [hw]
    rfl

/-! ## Fetch errors and template reads -/

/-- C15. When the fetch of the Combination fails with an error that is not a
not-found error (one that `apierrors.IsNotFound` rejects: neither of reason
`NotFound` nor of an unknown reason with code 404), `Reconcile` returns exactly
that error with the empty result, and issues no further call: no status write,
no other collaborator call. -/
theorem fetch_error_propagates (env : Env) (w : World) (req : Request) (e : GoErr)
    (hget : lookupCombination env w req.NamespacedName = .error e)
    (hnf : e.IsNotFound = false) :
    Reconcile env w req =
      ({ Requeue := false, RequeueAfter := 0 }, some e,
        w.record (Call.GetCombination req.NamespacedName)) ∧
    passTrace env w req = [Call.GetCombination req.NamespacedName] ∧
    statusWrites (passTrace env w req) = [] := by
  have hplan : plan env w req = Plan.fetchFailed e := by
    simp [plan, hget]
  refine ⟨?_, ?_, ?_⟩
  · rw [Reconcile_eq_outcome, hplan]; simp [Plan.outcome, IgnoreNotFound, hnf]
  · rw [passTrace_eq_calls, hplan]; rfl
  · rw [passTrace_eq_calls, hplan]; rfl

theorem fetch_error_propagates_witness :
    (Reconcile refusedEnv demoWorld demoReq =
      ({ Requeue := false, RequeueAfter := 0 }, some (GoErr.plain "connection refused"),
        demoWorld.record (Call.GetCombination demoReq.NamespacedName)) ∧
     passTrace refusedEnv demoWorld demoReq = [Call.GetCombination demoReq.NamespacedName] ∧
     statusWrites (passTrace refusedEnv demoWorld demoReq) = []) ∧
    (Reconcile forbiddenEnv demoWorld demoReq =
      ({ Requeue := false, RequeueAfter := 0 },
        some (GoErr.status "Forbidden" 403 "combinations.combo.io \"c1\" is forbidden"),
        demoWorld.record (Call.GetCombination demoReq.NamespacedName)) ∧
     passTrace forbiddenEnv demoWorld demoReq = [Call.GetCombination demoReq.NamespacedName] ∧
     statusWrites (passTrace forbiddenEnv demoWorld demoReq) = []) :=
  ⟨fetch_error_propagates refusedEnv demoWorld demoReq (GoErr.plain "connection refused")
     rfl rfl,
   fetch_error_propagates forbiddenEnv demoWorld demoReq
     (GoErr.status "Forbidden" 403 "combinations.combo.io \"c1\" is forbidden") rfl rfl⟩

theorem templateReads_append (xs ys : List Call) :
    templateReads (xs ++ ys) = templateReads xs ++ templateReads ys := by
  induction xs with
  | nil => rfl
  | cons x rest ih => cases x <;> simp [templateReads, ih]

theorem planFor_report_reads (env : Env) (w : World) (req : Request)
    (c handed : Combination) (calls : List Call) (err : Option GoErr)
    (h : planFor env w req c = Plan.report handed calls err) :
    templateReads calls = [{ Namespace := "", Name := c.Spec.Template }] := by
  unfold planFor at h
  split at h
  · cases h
  · split at h
    · cases h; rfl
    · split at h
      · cases h; rfl
      · split at h <;> (cases h; rfl)

/-- A fetched Combination that is not being deleted is always reported. -/
theorem planFor_live (env : Env) (w : World) (req : Request) (c : Combination)
    (hdel : IsZero c.ObjectMeta.DeletionTimestamp = true) :
    ∃ handed calls err, planFor env w req c = Plan.report handed calls err := by
  unfold planFor
  simp only [hdel, Bool.true_eq_false, if_false]
  cases lookupTemplate env w { Name := c.Spec.Template } with
  | error e => exact ⟨_, _, _, rfl⟩
  | ok t =>
    simp only
    cases env.NewBuilder t.Spec.Body (streamOf c) with
    | error e => exact ⟨_, _, _, rfl⟩
    | ok b =>
      simp only
      cases b.Build with
      | error e => exact ⟨_, _, _, rfl⟩
      | ok ms => exact ⟨_, _, _, rfl⟩

theorem templates_after_pass (env : Env) (w : World) (req : Request) :
    (Reconcile env w req).2.2.templates = w.templates := by
  rw [Reconcile_eq_outcome]
  cases plan env w req with
  | fetchFailed e => rfl
  | deleted => rfl
  | report handed calls err =>
    simp only [Plan.outcome]
    cases updateOutcome env w handed <;> rfl

/-- C16. Every Template read of a pass uses the identity with the empty
namespace and the name `Spec.Template` of the fetched Combination, whatever
the namespace of the Combination; a pass over a fetched Combination that is
not being deleted issues exactly that one read. No pass changes the stored
Templates. -/
theorem template_read_by_name_only (env : Env) (w : World) (req : Request) :
    (∀ key ∈ templateReads (passTrace env w req),
      ∃ c, lookupCombination env w req.NamespacedName = .ok c ∧
        key = { Namespace := "", Name := c.Spec.Template }) ∧
    (∀ c, lookupCombination env w req.NamespacedName = .ok c →
      IsZero c.ObjectMeta.DeletionTimestamp = true →
      templateReads (passTrace env w req) =
        [{ Namespace := "", Name := c.Spec.Template }]) ∧
    (Reconcile env w req).2.2.templates = w.templates := by
  have hreads : ∀ c handed calls err,
      lookupCombination env w req.NamespacedName = .ok c →
      plan env w req = Plan.report handed calls err →
      templateReads (passTrace env w req) =
        [{ Namespace := "", Name := c.Spec.Template }] := by
    intro c handed calls err hget hp
    rw [passTrace_eq_calls, hp]
    unfold plan at hp
    rw [hget] at hp
    simp [Plan.calls, templateReads_append,
      planFor_report_reads env w req c handed calls err hp, templateReads]
  refine ⟨?_, ?_, templates_after_pass env w req⟩
  · intro key hkey
    cases hp : plan env w req with
    | fetchFailed e =>
      rw [passTrace_eq_calls, hp] at hkey
      simp [Plan.calls, templateReads] at hkey
    | deleted =>
      rw [passTrace_eq_calls, hp] at hkey
      simp [Plan.calls, templateReads] at hkey
    | report handed calls err =>
      cases hget : lookupCombination env w req.NamespacedName with
      | error e => simp [plan, hget] at hp
      | ok c =>
        rw [hreads c handed calls err hget hp, List.mem_singleton] at hkey
        exact ⟨c, rfl, hkey⟩
  · intro c hget hdel
    obtain ⟨handed, calls, err, hpf⟩ := planFor_live env w req c hdel
    have hp : plan env w req = Plan.report handed calls err := by
      simp only [plan, hget, hpf]
    exact hreads c handed calls err hget hp

theorem template_read_by_name_only_witness :
    demoCombination.ObjectMeta.Namespace = "ns" ∧
    templateReads (passTrace demoEnv demoWorld demoReq) = [{ Namespace := "", Name := "t1" }] ∧
    (Reconcile demoEnv demoWorld demoReq).2.2.templates = demoWorld.templates :=
  ⟨rfl,
   (template_read_by_name_only demoEnv demoWorld demoReq).2.1 demoCombination rfl rfl,
   (template_read_by_name_only demoEnv demoWorld demoReq).2.2⟩

/-! ## Returned error and requeue -/

/-- C17. `Reconcile` returns a nil error exactly in three outcomes: the fetch
of the Combination answers not-found (an error `apierrors.IsNotFound` accepts:
of reason `NotFound`, or of an unknown reason with code 404); the fetched
Combination is being
deleted; or the template fetch, the builder construction, the manifest
generation and the status update of the success report all succeed. In every
other outcome the returned error is non-nil. -/
theorem nil_error_iff (env : Env) (w : World) (req : Request) :
    (Reconcile env w req).2.1 = none ↔
      ((∃ e, lookupCombination env w req.NamespacedName = .error e ∧
          e.IsNotFound = true) ∨
       (∃ c, lookupCombination env w req.NamespacedName = .ok c ∧
          IsZero c.ObjectMeta.DeletionTimestamp = false) ∨
       (∃ c t b ms, lookupCombination env w req.NamespacedName = .ok c ∧
          IsZero c.ObjectMeta.DeletionTimestamp = true ∧
          lookupTemplate env w { Namespace := "", Name := c.Spec.Template } = .ok t ∧
          env.NewBuilder t.Spec.Body
            { args := formatArguments c.Spec.Arguments, solveAhead := true } = .ok b ∧
          b.Build = .ok ms ∧
          updateOutcome env w
            { ObjectMeta := c.ObjectMeta, Spec := c.Spec,
              Status := {
                Conditions := env.conditions.NewConditions env.Now none
                  (SuccessCondition env.conditions),
                Evaluation := ms } } = none)) := by
  rw [Reconcile_eq_outcome]
  cases hget : lookupCombination env w req.NamespacedName with
  | error e =>
    have hplan : plan env w req = Plan.fetchFailed e := by simp [plan, hget]
    rw [hplan]
    cases hnf : e.IsNotFound <;> simp [Plan.outcome, IgnoreNotFound, hnf]
  | ok c =>
    cases hdel : IsZero c.ObjectMeta.DeletionTimestamp with
    | false =>
      have hplan : plan env w req = Plan.deleted := by simp [plan, planFor, hget, hdel]
      rw [hplan]
      simp [Plan.outcome, hdel]
    | true =>
      cases htpl : lookupTemplate env w { Namespace := "", Name := c.Spec.Template } with
      | error e =>
        rw [plan_template_failed env w req c e hget hdel htpl]
        simp only [Plan.outcome]
        cases updateOutcome env w _ <;> simp [hdel, htpl]
      | ok t =>
        cases hnew : env.NewBuilder t.Spec.Body
            { args := formatArguments c.Spec.Arguments, solveAhead := true } with
        | error e =>
          rw [plan_builder_failed env w req c t e hget hdel htpl hnew]
          simp only [Plan.outcome]
          cases updateOutcome env w _ <;> simp [hdel, htpl, hnew]
        | ok b =>
          cases hbuild : b.Build with
          | error e =>
            rw [plan_build_failed env w req c t b e hget hdel htpl hnew hbuild]
            simp only [Plan.outcome]
            cases updateOutcome env w _ <;> simp [hdel, htpl, hnew, hbuild]
          | ok ms =>
            rw [plan_rendered env w req c t b ms hget hdel htpl hnew hbuild]
            simp only [Plan.outcome, withStatus]
            cases hupd : updateOutcome env w _ <;> simp [hdel, htpl, hnew, hbuild, hupd]

theorem nil_error_iff_witness :
    (Reconcile demoEnv emptyWorld demoReq).2.1 = none ∧
    (Reconcile unknown404Env demoWorld demoReq).2.1 = none ∧
    (Reconcile demoEnv deletingWorld demoReq).2.1 = none ∧
    (Reconcile demoEnv demoWorld demoReq).2.1 = none ∧
    (Reconcile forbiddenEnv demoWorld demoReq).2.1 ≠ none ∧
    (Reconcile demoEnv noTemplateWorld demoReq).2.1 ≠ none ∧
    (Reconcile conflictEnv demoWorld demoReq).2.1 ≠ none := by
  refine ⟨?_, ?_, ?_, ?_, ?_, ?_, ?_⟩
  · exact (nil_error_iff demoEnv emptyWorld demoReq).mpr
      (Or.inl ⟨NewNotFound "combinations.combo.io" "c1", rfl, rfl⟩)
  · exact (nil_error_iff unknown404Env demoWorld demoReq).mpr
      (Or.inl ⟨GoErr.status StatusReasonUnknown StatusNotFound
        "the server could not find the requested resource", rfl, rfl⟩)
  · exact (nil_error_iff demoEnv deletingWorld demoReq).mpr
      (Or.inr (Or.inl ⟨_, rfl, rfl⟩))
  · exact (nil_error_iff demoEnv demoWorld demoReq).mpr
      (Or.inr (Or.inr ⟨demoCombination, demoTemplate,
        { Build := .ok ["manifest-dev", "manifest-prod"] },
        ["manifest-dev", "manifest-prod"], rfl, rfl, rfl, rfl, rfl, rfl⟩))
  · intro h
    rcases (nil_error_iff forbiddenEnv demoWorld demoReq).mp h with
      ⟨e, hget, hnf⟩ | ⟨c, hget, _⟩ | ⟨c, _, _, _, hget, _⟩
    · have he : e = GoErr.status "Forbidden" 403
          "combinations.combo.io \"c1\" is forbidden" := by
        have h0 : lookupCombination forbiddenEnv demoWorld demoReq.NamespacedName =
            .error (GoErr.status "Forbidden" 403
              "combinations.combo.io \"c1\" is forbidden") := rfl
        rw [h0] at hget
        exact (Except.error.inj hget).symm
      rw [he] at hnf
      revert hnf
      decide
    · have h0 : lookupCombination forbiddenEnv demoWorld demoReq.NamespacedName =
          .error (GoErr.status "Forbidden" 403
            "combinations.combo.io \"c1\" is forbidden") := rfl
      rw [h0] at hget
      cases hget
    · have h0 : lookupCombination forbiddenEnv demoWorld demoReq.NamespacedName =
          .error (GoErr.status "Forbidden" 403
            "combinations.combo.io \"c1\" is forbidden") := rfl
      rw [h0] at hget
      cases hget
  · decide
  · decide

/-- C18. The result of `Reconcile` asks for a delay (a non-zero
`RequeueAfter`) exactly when a status write of the pass was attempted and
failed; the result is then the delay `RequeueDefaultTime` and nothing else,
and in every other outcome it is the empty result. -/
theorem requeue_iff_write_failed (env : Env) (w : World) (req : Request) :
    ((Reconcile env w req).1.RequeueAfter ≠ 0 ↔
      ∃ c updateErr, c ∈ statusWrites (passTrace env w req) ∧
        updateOutcome env w c = some updateErr) ∧
    ((Reconcile env w req).1.RequeueAfter ≠ 0 →
      (Reconcile env w req).1 = { Requeue := false, RequeueAfter := RequeueDefaultTime }) ∧
    ((Reconcile env w req).1.RequeueAfter = 0 →
      (Reconcile env w req).1 = { Requeue := false, RequeueAfter := 0 }) := by
  have hne : RequeueDefaultTime ≠ 0 := by decide
  rw [statusWrites_passTrace, Reconcile_eq_outcome]
  cases plan env w req with
  | fetchFailed e => simp [Plan.outcome]
  | deleted => simp [Plan.outcome]
  | report handed calls err =>
    simp only [Plan.outcome]
    cases hupd : updateOutcome env w handed with
    | some ue => simp [hupd, hne]
    | none => simp [hupd]

end Combo
